import Mathlib

/-!
Verification of the strategic-plan synchronization system's graph core.

This file shallowly embeds the repository's knowledge-graph data model
(`src/core/knowledge_graph.py`), the metric derivation layer
(`src/core/metrics.py`), the completeness analyzer
(`src/core/completeness.py`), the alignment scorer
(`src/core/alignment.py`) and the pipeline-state diff machinery
(`src/core/pipeline_state.py`) as executable Lean definitions, and proves
the specification's claims about them.

Modelling conventions:
- RDF terms (rdflib `URIRef` / `Literal`) are the inductive `Term`; an
  rdflib `Graph` is a duplicate-free list of triples with set-insert
  semantics (`Graph.add` is a set insert).
- Python numbers are exact rationals (`ℚ`); all the formulas under proof
  are sums, products and divisions of small decimal constants, and no
  claim hinges on binary floating-point rounding.
- Python dicts are association lists; reads use last-write-wins lookup,
  matching dict assignment semantics.
- The LLM boundary (`self.llm.invoke`) and `json.loads` are external
  collaborators: they are passed in as function parameters (an oracle
  producing the raw response text for a given pair, and a parser returning
  `none` exactly when `json.loads` raises `JSONDecodeError`).  All the
  post-processing of their output (code-fence stripping, defaulting,
  enum validation) is translated from the source.
- `value[0].isupper()` is modelled by `Char.isUpper`; every string the
  system manipulates in the claims is ASCII, where the two agree.
-/

/-- A value in a Python property dict handed to `add_entity`
(the source dispatches on `bool`, `int`, `float`, `str`). -/
inductive PyValue where
  | str (s : String)
  | bool (b : Bool)
  | int (n : Int)
  | float (q : ℚ)
deriving DecidableEq, Repr

/-- An RDF term: a URI reference or a typed literal. -/
inductive Term where
  | uri (s : String)
  | litStr (s : String)
  | litBool (b : Bool)
  | litInt (n : Int)
  | litFloat (q : ℚ)
deriving DecidableEq, Repr

/-- An RDF triple (subject, predicate, object). -/
abbrev Triple := Term × Term × Term

/-- The rdflib `Graph` held by `KnowledgeGraph`: a set of triples,
kept as a duplicate-free list. -/
structure KnowledgeGraph where
  triples : List Triple
deriving DecidableEq, Repr

/-- The BITA namespace (`http://bita-system.org/ontology#`). -/
def BITA : String := "http://bita-system.org/ontology#"

/-- The full URI of `rdf:type`. -/
def RDF_TYPE : String := "http://www.w3.org/1999/02/22-rdf-syntax-ns#type"

/-- The full URI of `rdfs:label`. -/
def RDFS_LABEL : String := "http://www.w3.org/2000/01/rdf-schema#label"

/-- `self.bita[s]`: a URI in the BITA namespace. -/
def bitaURI (s : String) : Term := .uri (BITA ++ s)

/-- `RDF.type` as a term. -/
def rdfTypeURI : Term := .uri RDF_TYPE

/-- `RDFS.label` as a term. -/
def rdfsLabelURI : Term := .uri RDFS_LABEL

/-- Python `s.split("#")[-1]`: the substring after the last `'#'`
(the whole string when there is none). -/
def afterHash (s : String) : String :=
  ⟨s.data.foldl (fun acc c => if c = '#' then [] else acc ++ [c]) []⟩

/-- `Graph.add`: rdflib graphs are triple sets, so adding a triple already
present is a no-op. -/
def Graph.add (g : KnowledgeGraph) (t : Triple) : KnowledgeGraph :=
  if t ∈ g.triples then g else ⟨g.triples ++ [t]⟩

/-- `KnowledgeGraph._init_static_instances`: the four pre-seeded BSC
perspective entities with labels, and the fixed `bscDependsOn` chain. -/
def kgInit : KnowledgeGraph :=
  ⟨[(bitaURI "BSC_Financial", rdfTypeURI, bitaURI "BSCPerspective"),
    (bitaURI "BSC_Financial", rdfsLabelURI, .litStr "Financial"),
    (bitaURI "BSC_Customer", rdfTypeURI, bitaURI "BSCPerspective"),
    (bitaURI "BSC_Customer", rdfsLabelURI, .litStr "Customer"),
    (bitaURI "BSC_InternalProcess", rdfTypeURI, bitaURI "BSCPerspective"),
    (bitaURI "BSC_InternalProcess", rdfsLabelURI, .litStr "Internal Process"),
    (bitaURI "BSC_LearningGrowth", rdfTypeURI, bitaURI "BSCPerspective"),
    (bitaURI "BSC_LearningGrowth", rdfsLabelURI, .litStr "Learning & Growth"),
    (bitaURI "BSC_Financial", bitaURI "bscDependsOn", bitaURI "BSC_Customer"),
    (bitaURI "BSC_Customer", bitaURI "bscDependsOn", bitaURI "BSC_InternalProcess"),
    (bitaURI "BSC_InternalProcess", bitaURI "bscDependsOn", bitaURI "BSC_LearningGrowth")]⟩

/-- The entity-reference heuristic of `add_entity`: a string value is
stored as a URI when it is non-empty, starts with an uppercase letter,
contains `'_'`, has no space, and is at most 30 characters long. -/
def looksLikeEntityRef (v : String) : Bool :=
  v ≠ "" && (v.data.headD ' ').isUpper && v.data.contains '_' &&
    !(v.data.contains ' ') && v.data.length ≤ 30

/-- The typed object term `add_entity` builds for a property value. -/
def valueTerm (v : PyValue) : Term :=
  match v with
  | .bool b => .litBool b
  | .int n => .litInt n
  | .float q => .litFloat q
  | .str s => if looksLikeEntityRef s then .uri (BITA ++ s) else .litStr s

/-- `rdflib.Literal(value)` with no explicit datatype, as used for
`rdfs:label` (the datatype is inferred from the Python type). -/
def plainLit (v : PyValue) : Term :=
  match v with
  | .str s => .litStr s
  | .bool b => .litBool b
  | .int n => .litInt n
  | .float q => .litFloat q

/-- The triples `add_entity(entity_id, entity_type, properties)` adds, in
source order: the `rdf:type` triple, the `rdfs:label` triple when a
`label` property is present, then one triple per remaining property. -/
def entityTriples (entity_id entity_type : String)
    (properties : List (String × PyValue)) : List Triple :=
  (bitaURI entity_id, rdfTypeURI, bitaURI entity_type) ::
    ((match properties.lookup "label" with
      | some v => [(bitaURI entity_id, rdfsLabelURI, plainLit v)]
      | none => []) ++
      (properties.filter (fun p => p.1 ≠ "label")).map
        (fun p => (bitaURI entity_id, bitaURI p.1, valueTerm p.2)))

/-- `KnowledgeGraph.add_entity`. -/
def add_entity (g : KnowledgeGraph) (entity_id entity_type : String)
    (properties : List (String × PyValue)) : KnowledgeGraph :=
  (entityTriples entity_id entity_type properties).foldl Graph.add g

/-- `KnowledgeGraph.add_relationship`. -/
def add_relationship (g : KnowledgeGraph)
    (subject_id predicate object_id : String) : KnowledgeGraph :=
  Graph.add g (bitaURI subject_id, bitaURI predicate, bitaURI object_id)

/-- Python `str(term)`: the URI text of a `URIRef`, the lexical form of a
`Literal`. -/
def termStr (t : Term) : String :=
  match t with
  | .uri s => s
  | .litStr s => s
  | .litBool b => cond b "true" "false"
  | .litInt n => toString n
  | .litFloat q => toString q

/-- `str(term).split("#")[-1]`, the id-extraction idiom used throughout
the source on query results. -/
def termKey (t : Term) : String := afterHash (termStr t)

/-- `Literal.toPython` for literals; for a `URIRef` object,
`get_entity_properties` stores `str(obj).split("#")[-1]`. -/
def termToPython (t : Term) : PyValue :=
  match t with
  | .litStr s => .str s
  | .litBool b => .bool b
  | .litInt n => .int n
  | .litFloat q => .float q
  | .uri s => .str (afterHash s)

/-- `KnowledgeGraph.get_entity_properties`: the (name, value) pairs for
the entity's subject URI, skipping `rdf:type`, in graph iteration order.
The Python function stores them in a dict; reads of the dict are modelled
by `dictGet` (last write wins). -/
def get_entity_properties (g : KnowledgeGraph) (entity_id : String) :
    List (String × PyValue) :=
  g.triples.filterMap (fun t =>
    if t.1 = bitaURI entity_id then
      if t.2.1 = rdfTypeURI then none
      else some (afterHash (termStr t.2.1), termToPython t.2.2)
    else none)

/-- Dict lookup on an entry list: the value of the last entry with the
key (dict assignment overwrites). -/
def dictGet (props : List (String × PyValue)) (key : String) : Option PyValue :=
  props.reverse.lookup key

/-- Python `props.get(key, default)`. -/
def pyGetD (props : List (String × PyValue)) (key : String) (dflt : PyValue) :
    PyValue :=
  (dictGet props key).getD dflt

/-!  ## Scoring maps and pure formulas (`src/core/metrics.py`)  -/

/-- `IMPORTANCE_MAP`. -/
def IMPORTANCE_MAP : List (String × Int) :=
  [("critical", 100), ("high", 75), ("moderate", 50), ("low", 25), ("negligible", 0)]

/-- `ALLOCATION_MAP`. -/
def ALLOCATION_MAP : List (String × Int) :=
  [("heavy", 100), ("moderate", 70), ("light", 40), ("minimal", 10)]

/-- `RELEVANCE_MAP`. -/
def RELEVANCE_MAP : List (String × Int) :=
  [("direct", 100), ("partial", 60), ("indirect", 30), ("none", 0)]

/-- `EGI_MAP`. -/
def EGI_MAP : List (String × Int) :=
  [("critical", 100), ("high", 70), ("moderate", 40), ("low", 10)]

/-- `CASCADE_MAP`. -/
def CASCADE_MAP : List (String × Int) :=
  [("strong", 100), ("moderate", 60), ("weak", 30), ("none", 0)]

/-- `SUFFICIENCY_MAP`. -/
def SUFFICIENCY_MAP : List (String × Int) :=
  [("fully_sufficient", 100), ("adequate", 70), ("insufficient", 40),
   ("severely_lacking", 10)]

/-- `CAUSAL_STRENGTH_MAP` (no entry for `"none"`). -/
def CAUSAL_STRENGTH_MAP : List (String × ℚ) :=
  [("strong", 1), ("moderate", 1/2), ("weak", 1/5)]

/-- Python `MAP.get(value)` where `MAP` has string keys: a non-string
Python value never matches. -/
def strLookup (m : List (String × Int)) (v : PyValue) : Option Int :=
  match v with
  | .str s => m.lookup s
  | _ => none

/-- `compute_alignment_score`: `RELEVANCE_MAP.get(relevance, 0)` as a
float. -/
def compute_alignment_score (relevance : PyValue) : ℚ :=
  ((strLookup RELEVANCE_MAP relevance).getD 0 : Int)

/-- `compute_priority_score`: `0.50·importance + 0.30·allocation +
0.20·risk_exposure`, with map defaults 50 and 70.  NOTE: the Python
signature's default argument is `risk_exposure: float = 0.5`. -/
def compute_priority_score (importance allocation : PyValue)
    (risk_exposure : ℚ) : ℚ :=
  (1/2) * ((strLookup IMPORTANCE_MAP importance).getD 50 : Int) +
    (3/10) * ((strLookup ALLOCATION_MAP allocation).getD 70 : Int) +
    (1/5) * risk_exposure

/-- `compute_priority_score` called without the `risk_exposure` argument:
the Python default is `0.5`. -/
def compute_priority_score_default (importance allocation : PyValue) : ℚ :=
  compute_priority_score importance allocation (1/2)

/-- `compute_kpi_utility` with the truthiness of the three inputs already
taken. -/
def compute_kpi_utility (baseline_exists measurable owner_assigned : Bool) : ℚ :=
  (2/5) * (if baseline_exists then 100 else 0) +
    (2/5) * (if measurable then 100 else 0) +
    (1/5) * (if owner_assigned then 100 else 0)

/-- `compute_catchball`: `CASCADE_MAP.get(c,0) * SUFFICIENCY_MAP.get(s,70)
/ 100.0`. -/
def compute_catchball (goal_cascade resource_sufficiency : PyValue) : ℚ :=
  (((strLookup CASCADE_MAP goal_cascade).getD 0 *
    (strLookup SUFFICIENCY_MAP resource_sufficiency).getD 70 : Int) : ℚ) / 100

/-- `compute_coverage`. -/
def compute_coverage (objectives_count supported_count : Nat) : ℚ :=
  if objectives_count = 0 then 0
  else ((supported_count : ℚ) / (objectives_count : ℚ)) * 100

/-- `compute_egi`: `EGI_MAP.get(execution_gap, 40)` as a float. -/
def compute_egi (execution_gap : String) : ℚ :=
  ((EGI_MAP.lookup execution_gap).getD 40 : Int)

/-!  ## Query helpers (the fixed SPARQL shapes, as scans of the triple set)  -/

/-- `SELECT ?x WHERE { ?x rdf:type bita:<tyName> }`. -/
def typedSubjects (g : KnowledgeGraph) (tyName : String) : List Term :=
  g.triples.filterMap (fun t =>
    if t.2.1 = rdfTypeURI ∧ t.2.2 = bitaURI tyName then some t.1 else none)

/-- `SELECT ?s ?o WHERE { ?s bita:<relName> ?o }`. -/
def predPairs (g : KnowledgeGraph) (relName : String) : List (Term × Term) :=
  g.triples.filterMap (fun t =>
    if t.2.1 = bitaURI relName then some (t.1, t.2.2) else none)

/-- The `supportsObjective` rows `SELECT ?tg ?obj`, with the ids already
extracted as the source does on each row. -/
def supportPairs (g : KnowledgeGraph) : List (String × String) :=
  (predPairs g "supportsObjective").map (fun p => (termKey p.1, termKey p.2))

/-- `SELECT ?goal WHERE { ?goal bita:hasObjective bita:<objId> }`, the
parent-goal lookup, as ids. -/
def parentGoalsOf (g : KnowledgeGraph) (objId : String) : List String :=
  g.triples.filterMap (fun t =>
    if t.2.1 = bitaURI "hasObjective" ∧ t.2.2 = bitaURI objId
    then some (termKey t.1) else none)

/-- The goal/perspective-label join used by `_get_goals_by_perspective`,
`verify_bsc_chain` and `build_causal_links`:
`?goal rdf:type bita:Goal . ?goal bita:bscPerspective ?p . ?p rdfs:label ?l`. -/
def goalPerspectiveRows (g : KnowledgeGraph) : List (Term × String) :=
  (typedSubjects g "Goal").flatMap (fun goal =>
    (g.triples.filterMap (fun t =>
      if t.1 = goal ∧ t.2.1 = bitaURI "bscPerspective" then some t.2.2 else none)).flatMap
      (fun p =>
        g.triples.filterMap (fun t =>
          if t.1 = p ∧ t.2.1 = rdfsLabelURI then some (goal, termStr t.2.2) else none)))

/-- An entry of `_get_goals_by_perspective`'s per-label list:
`{"id": ..., "name": ..., "props": ...}`. -/
structure GoalInfo where
  id : String
  name : PyValue
  props : List (String × PyValue)
deriving DecidableEq, Repr

/-- `_get_goals_by_perspective(kg)[label]` (empty when the label is
absent, as `dict.get(label, [])`). -/
def goalsByPerspective (g : KnowledgeGraph) (label : String) : List GoalInfo :=
  (goalPerspectiveRows g).filterMap (fun r =>
    if r.2 = label then
      some (let gid := termKey r.1
            let props := get_entity_properties g gid
            ⟨gid, pyGetD props "label" (pyGetD props "goalName" (.str gid)), props⟩)
    else none)

/-- `BSC_CAUSAL_PAIRS`. -/
def BSC_CAUSAL_PAIRS : List (String × String) :=
  [("Learning & Growth", "Internal Process"),
   ("Internal Process", "Customer"),
   ("Customer", "Financial")]

/-- Python `round(q, n)` on the exact rational model. -/
def pyRound (q : ℚ) (n : Nat) : ℚ :=
  ((round (q * (10 : ℚ) ^ n) : ℤ) : ℚ) / (10 : ℚ) ^ n

/-- Python substring test `pat in s`. -/
def strContains (s pat : String) : Bool :=
  s.data.tails.any (fun t => pat.data.isPrefixOf t)

/-!  ## Causal linkage density (`compute_causal_linkage_density`)  -/

/-- Result record of `compute_causal_linkage_density`. -/
structure CLDResult where
  cld_score : ℚ
  perspective_pair_scores : List (String × ℚ)
  chain_completeness : List (String × Bool)
  missing_chains : List String
deriving DecidableEq, Repr

/-- `f"{source_perspective} -> {target_perspective}"`. -/
def pairLabel (pr : String × String) : String := pr.1 ++ " -> " ++ pr.2

/-- `len(source_goals) * len(target_goals)` for a perspective pair. -/
def pairMaxPossible (g : KnowledgeGraph) (pr : String × String) : Nat :=
  (goalsByPerspective g pr.1).length * (goalsByPerspective g pr.2).length

/-- The per-link strengths counted for a perspective pair: for each
(source goal, target goal), `src_props.get(f"causalLink_{tgt.id}_strength")`
when that value is truthy and a key of `CAUSAL_STRENGTH_MAP`. -/
def pairLinkStrengths (g : KnowledgeGraph) (pr : String × String) : List ℚ :=
  (goalsByPerspective g pr.1).flatMap (fun src =>
    (goalsByPerspective g pr.2).filterMap (fun tgt =>
      match dictGet src.props ("causalLink_" ++ tgt.id ++ "_strength") with
      | some (.str s) => CAUSAL_STRENGTH_MAP.lookup s
      | _ => none))

/-- Accumulators of the perspective-pair loop of
`compute_causal_linkage_density`, in loop order. -/
structure CLDAcc where
  scores : List (String × ℚ)
  completeness : List (String × Bool)
  missing : List String
  densities : List ℚ
deriving DecidableEq, Repr

/-- The perspective-pair loop: a pair with `max_possible == 0` is marked
incomplete and skipped (`continue`) before `pair_densities.append`. -/
def cldLoop (g : KnowledgeGraph) : List (String × String) → CLDAcc
  | [] => ⟨[], [], [], []⟩
  | pr :: rest =>
    let acc := cldLoop g rest
    let lbl := pairLabel pr
    if pairMaxPossible g pr = 0 then
      ⟨(lbl, 0) :: acc.scores, (lbl, false) :: acc.completeness,
        lbl :: acc.missing, acc.densities⟩
    else
      let strengths := pairLinkStrengths g pr
      let density := strengths.sum / (pairMaxPossible g pr : ℚ)
      ⟨(lbl, pyRound density 4) :: acc.scores,
        (lbl, decide (0 < strengths.length)) :: acc.completeness,
        (if strengths.length = 0 then lbl :: acc.missing else acc.missing),
        density :: acc.densities⟩

/-- `compute_causal_linkage_density`. -/
def compute_causal_linkage_density (g : KnowledgeGraph) : CLDResult :=
  let acc := cldLoop g BSC_CAUSAL_PAIRS
  let cld : ℚ :=
    if acc.densities ≠ [] then
      (acc.densities.sum / (acc.densities.length : ℚ)) *
        (if acc.completeness ≠ [] then
          (((acc.completeness.filter (fun e => e.2)).length : ℚ) /
            (acc.completeness.length : ℚ))
        else 0)
    else 0
  ⟨pyRound cld 4, acc.scores, acc.completeness, acc.missing⟩

/-!  ## Remaining aggregates of `src/core/metrics.py`  -/

/-- `compute_sai`: mean of the positive alignment scores found by scanning
every task group's properties for names containing `"_relevance"`. -/
def compute_sai (g : KnowledgeGraph) : ℚ :=
  let scores :=
    (typedSubjects g "TaskGroup").flatMap (fun tgT =>
      (get_entity_properties g (termKey tgT)).filterMap (fun p =>
        if strContains p.1 "_relevance" then
          (let score := compute_alignment_score p.2
           if 0 < score then some score else none)
        else none))
  if scores = [] then 0 else scores.sum / (scores.length : ℚ)

/-- A record of `detect_prioritization_misalignment`'s output list. -/
structure Misalignment where
  objective_id : String
  task_group_id : String
  importance : PyValue
  allocation : PyValue
  mtype : String
deriving DecidableEq, Repr

/-- The (importance, allocation) categorical values
`detect_prioritization_misalignment` and `analyze_execution_gap` read for
a `supportsObjective` row: importance from the parent goal of the
objective (default `"moderate"`, also when no parent exists), allocation
from the task group (default `"moderate"`); also returns the parent goal
id (`""` when none). -/
def rowImportanceAllocation (g : KnowledgeGraph) (row : String × String) :
    String × PyValue × PyValue :=
  let tgProps := get_entity_properties g row.1
  let goalId := ((parentGoalsOf g row.2).head?).getD ""
  let importance :=
    match (parentGoalsOf g row.2).head? with
    | some gid => pyGetD (get_entity_properties g gid) "strategicImportance" (.str "moderate")
    | none => .str "moderate"
  (goalId, importance, pyGetD tgProps "resourceAllocation" (.str "moderate"))

/-- `detect_prioritization_misalignment`. -/
def detect_prioritization_misalignment (g : KnowledgeGraph) :
    List Misalignment :=
  (supportPairs g).filterMap (fun row =>
    let ia := rowImportanceAllocation g row
    let importance_score := (strLookup IMPORTANCE_MAP ia.2.1).getD 50
    let allocation_score := (strLookup ALLOCATION_MAP ia.2.2).getD 70
    if 75 ≤ importance_score ∧ allocation_score ≤ 40 then
      some ⟨row.2, row.1, ia.2.1, ia.2.2, "under-resourced"⟩
    else if importance_score ≤ 25 ∧ 100 ≤ allocation_score then
      some ⟨row.2, row.1, ia.2.1, ia.2.2, "over-resourced"⟩
    else none)

/-- Python `str(value)` as used in f-strings. -/
def pyValStr (v : PyValue) : String :=
  match v with
  | .str s => s
  | .bool b => cond b "True" "False"
  | .int n => toString n
  | .float q => toString q

/-- Whether `ip_props.get(f"causalLink_{goal.id}_strength")` is a key of
`CAUSAL_STRENGTH_MAP` (the support test of `detect_bsc_structural_gaps`). -/
def hasCausalSupport (ip : GoalInfo) (goalId : String) : Bool :=
  match dictGet ip.props ("causalLink_" ++ goalId ++ "_strength") with
  | some (.str s) => (CAUSAL_STRENGTH_MAP.lookup s).isSome
  | _ => false

/-- The gap message `detect_bsc_structural_gaps` emits for a perspective
name and a goal. -/
def bscGapMsg (perspective : String) (goal : GoalInfo) : String :=
  perspective ++ " objective '" ++ pyValStr goal.name ++ "' (" ++ goal.id ++
    ") has no causal chain support from Internal Process objectives"

/-- `detect_bsc_structural_gaps`. -/
def detect_bsc_structural_gaps (g : KnowledgeGraph) : List String :=
  let ipGoals := goalsByPerspective g "Internal Process"
  ((goalsByPerspective g "Financial").filterMap (fun fin =>
    if ipGoals.any (fun ip => hasCausalSupport ip fin.id) then none
    else some (bscGapMsg "Financial" fin))) ++
  ((goalsByPerspective g "Customer").filterMap (fun cust =>
    if ipGoals.any (fun ip => hasCausalSupport ip cust.id) then none
    else some (bscGapMsg "Customer" cust)))

/-- A row of `compute_kipga_matrix`'s `plot_data`. -/
structure KipgaPoint where
  id : String
  name : PyValue
  goal_id : String
  goal_name : PyValue
  importance : ℚ
  performance : ℚ
  quadrant : String
deriving DecidableEq, Repr

/-- Result record of `compute_kipga_matrix`. -/
structure KipgaResult where
  concentrate_here : List String
  keep_up : List String
  low_priority : List String
  possible_overkill : List String
  plot_data : List KipgaPoint
deriving DecidableEq, Repr

/-- The `?obj rdf:type bita:Objective . ?goal bita:hasObjective ?obj`
join rows, as (objective id, goal id). -/
def objectiveGoalRows (g : KnowledgeGraph) : List (String × String) :=
  (typedSubjects g "Objective").flatMap (fun o =>
    g.triples.filterMap (fun t =>
      if t.2.1 = bitaURI "hasObjective" ∧ t.2.2 = o
      then some (termKey o, termKey t.1) else none))

/-- `obj_alignment_scores[obj_id]`: per supporting row, the alignment
score of `tg_props.get(f"alignment_{obj_id}_relevance", "none")`. -/
def objAlignmentScores (g : KnowledgeGraph) (objId : String) : List ℚ :=
  (supportPairs g).filterMap (fun row =>
    if row.2 = objId then
      some (compute_alignment_score
        (pyGetD (get_entity_properties g row.1)
          ("alignment_" ++ objId ++ "_relevance") (.str "none")))
    else none)

/-- One `plot_data` row of `compute_kipga_matrix`. -/
def kipgaPoint (g : KnowledgeGraph) (row : String × String) : KipgaPoint :=
  let objProps := get_entity_properties g row.1
  let goalProps := get_entity_properties g row.2
  let importance : ℚ :=
    (((strLookup IMPORTANCE_MAP
        (pyGetD goalProps "strategicImportance" (.str "moderate"))).getD 50 : Int) : ℚ) / 100
  let perfScores := objAlignmentScores g row.1
  let performance : ℚ :=
    if perfScores ≠ [] then (perfScores.sum / (perfScores.length : ℚ)) / 100 else 0
  let quadrant :=
    if 1/2 ≤ importance ∧ performance < 1/2 then "concentrate_here"
    else if 1/2 ≤ importance ∧ 1/2 ≤ performance then "keep_up"
    else if importance < 1/2 ∧ performance < 1/2 then "low_priority"
    else "possible_overkill"
  ⟨row.1, pyGetD objProps "label" (.str row.1), row.2,
    pyGetD goalProps "label" (pyGetD goalProps "goalName" (.str row.2)),
    pyRound importance 3, pyRound performance 3, quadrant⟩

/-- `compute_kipga_matrix`. -/
def compute_kipga_matrix (g : KnowledgeGraph) : KipgaResult :=
  let points := (objectiveGoalRows g).map (kipgaPoint g)
  ⟨(points.filter (fun p => p.quadrant = "concentrate_here")).map (fun p => p.id),
   (points.filter (fun p => p.quadrant = "keep_up")).map (fun p => p.id),
   (points.filter (fun p => p.quadrant = "low_priority")).map (fun p => p.id),
   (points.filter (fun p => p.quadrant = "possible_overkill")).map (fun p => p.id),
   points⟩

/-- Helper for Python `s.split(sep)` with a non-empty separator: consumes
the character list left to right, closing a segment at each separator
occurrence.  `fuel` bounds the recursion (call it with the list length). -/
def pySplitGo (pat : List Char) : Nat → List Char → List Char → List (List Char)
  | _, [], cur => [cur.reverse]
  | 0, l, cur => [cur.reverse ++ l]
  | Nat.succ fuel, c :: rest, cur =>
    if pat.isPrefixOf (c :: rest) then
      cur.reverse :: pySplitGo pat fuel ((c :: rest).drop pat.length) []
    else pySplitGo pat fuel rest (c :: cur)

/-- Python `s.split(sep)` (non-empty separator). -/
def pySplit (s sep : String) : List String :=
  (pySplitGo sep.data s.data.length s.data []).map (fun l => ⟨l⟩)

/-- Python truthiness of a value (`if value:`). -/
def pyTruthy (v : PyValue) : Bool :=
  match v with
  | .str s => s ≠ ""
  | .bool b => b
  | .int n => n ≠ 0
  | .float q => q ≠ 0

/-- The catchball scores gathered by `compute_all_metrics`: for every
task group property named `…cascade_{obj}_strength…` whose matching
`sufficiency_{obj}_level` property exists, `compute_catchball` of the
two values. -/
def catchballScores (g : KnowledgeGraph) : List ℚ :=
  (typedSubjects g "TaskGroup").flatMap (fun tgT =>
    let tgProps := get_entity_properties g (termKey tgT)
    tgProps.filterMap (fun p =>
      if strContains p.1 "_strength" && strContains p.1 "cascade_" then
        (let objId := ((pySplit ((pySplit p.1 "cascade_").getD 1 "") "_strength").getD 0 "")
         let sufficiencyKey := "sufficiency_" ++ objId ++ "_level"
         match dictGet tgProps sufficiencyKey with
         | some sufficiency => some (compute_catchball p.2 sufficiency)
         | none => none)
      else none))

/-- A value of the `compute_all_metrics` result dict. -/
inductive MetricVal where
  | num (q : ℚ)
  | cld (c : CLDResult)
  | mis (l : List Misalignment)
  | strs (l : List String)
  | kipga (k : KipgaResult)
deriving DecidableEq, Repr

/-- `compute_all_metrics`: the result dict, with every aggregate guarded
by its empty-input default exactly as in the source. -/
def compute_all_metrics (g : KnowledgeGraph) : List (String × MetricVal) :=
  let sai := compute_sai g
  let total_objectives := (typedSubjects g "Objective").length
  let support_results := supportPairs g
  let supported_objectives := (support_results.map (fun r => r.2)).dedup
  let coverage := compute_coverage total_objectives supported_objectives.length
  let priority_scores := support_results.map (fun row =>
    compute_priority_score
      (pyGetD (get_entity_properties g row.2) "strategicImportance" (.str "moderate"))
      (pyGetD (get_entity_properties g row.1) "resourceAllocation" (.str "moderate"))
      50)
  let avg_priority : ℚ :=
    if priority_scores ≠ [] then priority_scores.sum / (priority_scores.length : ℚ)
    else 50
  let kpi_utilities := (typedSubjects g "KPI").map (fun kpiT =>
    let props := get_entity_properties g (termKey kpiT)
    compute_kpi_utility
      (pyTruthy (pyGetD props "kpiBaselineExists" (.bool false)))
      (pyTruthy (pyGetD props "kpiMeasurable" (.bool true)))
      ((dictGet props "ownedBy").isSome))
  let avg_kpi_utility : ℚ :=
    if kpi_utilities ≠ [] then kpi_utilities.sum / (kpi_utilities.length : ℚ) else 0
  let catchball_scores := catchballScores g
  let avg_catchball : ℚ :=
    if catchball_scores ≠ [] then catchball_scores.sum / (catchball_scores.length : ℚ)
    else 70
  let gap_severities := support_results.map (fun row =>
    let importance_score := (strLookup IMPORTANCE_MAP
      (pyGetD (get_entity_properties g row.2) "strategicImportance" (.str "moderate"))).getD 50
    let allocation_score := (strLookup ALLOCATION_MAP
      (pyGetD (get_entity_properties g row.1) "resourceAllocation" (.str "moderate"))).getD 70
    let gap := importance_score - allocation_score
    if 40 < gap then compute_egi "critical"
    else if 20 < gap then compute_egi "high"
    else if 0 < gap then compute_egi "moderate"
    else compute_egi "low")
  let egi : ℚ :=
    if gap_severities ≠ [] then gap_severities.sum / (gap_severities.length : ℚ) else 30
  [("sai", .num (pyRound sai 2)),
   ("coverage", .num (pyRound coverage 2)),
   ("avg_priority", .num (pyRound avg_priority 2)),
   ("avg_kpi_utility", .num (pyRound avg_kpi_utility 2)),
   ("avg_catchball", .num (pyRound avg_catchball 2)),
   ("egi", .num (pyRound egi 2)),
   ("cld", .cld (compute_causal_linkage_density g)),
   ("prioritization_misalignments", .mis (detect_prioritization_misalignment g)),
   ("bsc_structural_gaps", .strs (detect_bsc_structural_gaps g)),
   ("kipga", .kipga (compute_kipga_matrix g))]

/-!  ## Python string helpers shared by the JSON post-processing  -/

/-- The whitespace characters Python `str.strip()` removes. -/
def isPySpace (c : Char) : Bool :=
  c = ' ' || c = '\t' || c = '\n' || c = '\x0d' || c = '\x0b' || c = '\x0c'

/-- Python `s.strip()`. -/
def pyStrip (s : String) : String :=
  ⟨((s.data.dropWhile isPySpace).reverse.dropWhile isPySpace).reverse⟩

/-- Python `s.startswith(pre)`. -/
def pyStartsWith (s pre : String) : Bool :=
  pre.data.isPrefixOf s.data

/-- Python `sep.join(parts)`. -/
def strJoin (sep : String) (parts : List String) : String :=
  ⟨List.intercalate sep.data (parts.map (fun p => p.data))⟩

/-- A JSON value as far as the judgment post-processing inspects one:
a string, or anything else (numbers, arrays, objects, null — none of
which survives enum validation, and which no claim's data path stores). -/
inductive JsonVal where
  | str (s : String)
  | other
deriving DecidableEq, Repr

/-- A parsed JSON object: the result of a successful `json.loads` on a
judgment response. -/
abbrev JObj := List (String × JsonVal)

/-- A JSON parser stands in for `json.loads`: `none` models a raised
`JSONDecodeError`. -/
abbrev JsonParser := String → Option JObj

/-- The lexical form rdflib stores for `Literal(value, datatype=XSD.string)`
of a JSON value (only ever applied to strings on the claims' paths). -/
def jsonLex (v : JsonVal) : String :=
  match v with
  | .str s => s
  | .other => "other"

/-- The fence-line filter of the completeness-analyzer JSON stripping:
lines toggle `in_json` when they start (after strip) with three backticks
and are kept only while `in_json` holds. -/
def fenceFilter : Bool → List String → List String
  | _, [] => []
  | inJson, l :: rest =>
    if pyStartsWith (pyStrip l) "```" then fenceFilter (!inJson) rest
    else if inJson then l :: fenceFilter inJson rest
    else fenceFilter inJson rest

/-- The code-fence stripping of `analyze_goal_cascade`,
`analyze_resource_sufficiency` and `build_causal_links` (applied only
when the content starts with three backticks). -/
def stripFencesKeepInner (content : String) : String :=
  if pyStartsWith content "```" then
    strJoin "\n" (fenceFilter false (pySplit content "\n"))
  else content

/-!  ## Completeness analysis (`src/core/completeness.py`)  -/

/-- A record of `analyze_execution_gap`'s `gaps` list. -/
structure GapRecord where
  objective_id : String
  goal_id : String
  task_group_id : String
  importance : PyValue
  allocation : PyValue
  gap_score : Int
  severity : String
deriving DecidableEq, Repr

/-- Result record of `analyze_execution_gap`. -/
structure ExecGapResult where
  overall_severity : String
  gaps : List GapRecord
  total_gaps : Nat
deriving DecidableEq, Repr

/-- The per-pair severity bucket of `analyze_execution_gap` (the inline
`if gap > 40 … elif gap > 20 … elif gap > 0 … else` chain). -/
def gapSeverityOf (gap : Int) : String :=
  if 40 < gap then "critical"
  else if 20 < gap then "high"
  else if 0 < gap then "moderate"
  else "low"

/-- The local `severity_scores` dict of `analyze_execution_gap`.  (The
Python code indexes it with `severity_scores[g["severity"]]`; every
recorded severity is one of its keys, so the `.getD 0` default is
unreachable.) -/
def severityScores : List (String × Int) :=
  [("critical", 100), ("high", 70), ("moderate", 40), ("low", 10)]

/-- The gap record `analyze_execution_gap` builds for one
`supportsObjective` row (before the `gap > 0` recording filter).  The
function's local `importance_map`/`allocation_map` literals are the same
association lists as the module-level `IMPORTANCE_MAP`/`ALLOCATION_MAP`. -/
def execGapRecord (g : KnowledgeGraph) (row : String × String) : GapRecord :=
  let ia := rowImportanceAllocation g row
  let importance_score := (strLookup IMPORTANCE_MAP ia.2.1).getD 50
  let allocation_score := (strLookup ALLOCATION_MAP ia.2.2).getD 70
  let gap := importance_score - allocation_score
  ⟨row.2, ia.1, row.1, ia.2.1, ia.2.2, gap, gapSeverityOf gap⟩

/-- `CompletenessAnalyzer.analyze_execution_gap`. -/
def analyze_execution_gap (g : KnowledgeGraph) : ExecGapResult :=
  let gaps := (supportPairs g).filterMap (fun row =>
    let r := execGapRecord g row
    if 0 < r.gap_score then some r else none)
  let overall_severity :=
    if gaps = [] then "low"
    else
      let avg_severity : ℚ :=
        (((gaps.map (fun r => (severityScores.lookup r.severity).getD 0)).sum : Int) : ℚ) /
          (gaps.length : ℚ)
      if 70 ≤ avg_severity then "critical"
      else if 40 ≤ avg_severity then "high"
      else if 20 ≤ avg_severity then "moderate"
      else "low"
  ⟨overall_severity, gaps, gaps.length⟩

/-- The LLM boundary of the cascade / sufficiency judgments: the raw
response text for the (objective props, task-group props) the prompt was
built from. -/
abbrev PropsOracle := List (String × PyValue) → List (String × PyValue) → String

/-- `CompletenessAnalyzer.analyze_goal_cascade`: returns the validated
`goal_cascade` category and the reasoning value. -/
def analyze_goal_cascade (parse : JsonParser) (llm : PropsOracle)
    (objective_props task_group_props : List (String × PyValue)) :
    String × JsonVal :=
  let content := stripFencesKeepInner (pyStrip (llm objective_props task_group_props))
  match parse content with
  | none => ("moderate", .str "Failed to parse LLM output")
  | some r =>
    let gc := (r.lookup "goal_cascade").getD (.str "moderate")
    let reasoning := (r.lookup "reasoning").getD (.str "No reasoning provided")
    (match gc with
     | .str s => if s ∈ ["strong", "moderate", "weak", "none"] then (s, reasoning)
                 else ("moderate", reasoning)
     | .other => ("moderate", reasoning))

/-- `CompletenessAnalyzer.analyze_resource_sufficiency`: returns the
validated `resource_sufficiency` category and the reasoning value. -/
def analyze_resource_sufficiency (parse : JsonParser) (llm : PropsOracle)
    (objective_props task_group_props : List (String × PyValue)) :
    String × JsonVal :=
  let content := stripFencesKeepInner (pyStrip (llm objective_props task_group_props))
  match parse content with
  | none => ("adequate", .str "Failed to parse LLM output")
  | some r =>
    let rs := (r.lookup "resource_sufficiency").getD (.str "adequate")
    let reasoning := (r.lookup "reasoning").getD (.str "No reasoning provided")
    (match rs with
     | .str s =>
        if s ∈ ["fully_sufficient", "adequate", "insufficient", "severely_lacking"]
        then (s, reasoning) else ("adequate", reasoning)
     | .other => ("adequate", reasoning))

/-- The rows of the `?tg bita:supportsGoal ?obj` query that drives the
cascade/sufficiency pass of `analyze_completeness`. -/
def supportsGoalPairs (g : KnowledgeGraph) : List (String × String) :=
  (predPairs g "supportsGoal").map (fun p => (termKey p.1, termKey p.2))

/-- Step 3 of `CompletenessAnalyzer.analyze_completeness`: for every
`supportsGoal` row (prefetched), judge cascade and sufficiency on the
live graph's properties and write the four judgment triples onto the
task group. -/
def cascadeSufficiencyStep (parse : JsonParser)
    (cascadeLlm suffLlm : PropsOracle) (g : KnowledgeGraph) : KnowledgeGraph :=
  (supportsGoalPairs g).foldl (fun acc row =>
    let obj_props := get_entity_properties acc row.2
    let tg_props := get_entity_properties acc row.1
    let cascade_result := analyze_goal_cascade parse cascadeLlm obj_props tg_props
    let sufficiency_result := analyze_resource_sufficiency parse suffLlm obj_props tg_props
    let acc := Graph.add acc
      (bitaURI row.1, bitaURI ("cascade_" ++ row.2 ++ "_strength"),
        .litStr cascade_result.1)
    let acc := Graph.add acc
      (bitaURI row.1, bitaURI ("cascade_" ++ row.2 ++ "_reasoning"),
        .litStr (jsonLex cascade_result.2))
    let acc := Graph.add acc
      (bitaURI row.1, bitaURI ("sufficiency_" ++ row.2 ++ "_level"),
        .litStr sufficiency_result.1)
    Graph.add acc
      (bitaURI row.1, bitaURI ("sufficiency_" ++ row.2 ++ "_reasoning"),
        .litStr (jsonLex sufficiency_result.2))) g

/-!  ## Alignment scoring (`src/core/alignment.py`)  -/

/-- One tuple of `get_strategy_action_pairs`: (objective id, objective
props, task-group id, task-group props, parent-goal props, child tasks). -/
structure PairEntry where
  objId : String
  objProps : List (String × PyValue)
  tgId : String
  tgProps : List (String × PyValue)
  goalProps : List (String × PyValue)
  childTasks : List (List (String × PyValue))
deriving DecidableEq, Repr

/-- The `?tg bita:hasTask ?task . ?task rdf:type bita:Task` join rows. -/
def tgTaskRows (g : KnowledgeGraph) : List (Term × Term) :=
  (predPairs g "hasTask").filter (fun pr =>
    (pr.2, rdfTypeURI, bitaURI "Task") ∈ g.triples)

/-- `AlignmentScorer.get_strategy_action_pairs`: every objective (with
its parent goal) crossed with every task group, each with prefetched
properties and child tasks. -/
def get_strategy_action_pairs (g : KnowledgeGraph) : List PairEntry :=
  (typedSubjects g "Objective").flatMap (fun o =>
    (g.triples.filterMap (fun t =>
      if t.2.1 = bitaURI "hasObjective" ∧ t.2.2 = o then some t.1 else none)).flatMap
      (fun goal =>
        (typedSubjects g "TaskGroup").map (fun tgT =>
          let tgId := termKey tgT
          ⟨termKey o, get_entity_properties g (termKey o), tgId,
            get_entity_properties g tgId, get_entity_properties g (termKey goal),
            (tgTaskRows g).filterMap (fun pr =>
              if termKey pr.1 = tgId
              then some (get_entity_properties g (termKey pr.2)) else none)⟩)))

/-- The validated output of `AlignmentScorer.evaluate_alignment`. -/
structure AlignmentResult where
  relevance : String
  contribution_strength : String
  reasoning : JsonVal
deriving DecidableEq, Repr

/-- The fence stripping of `evaluate_alignment` (applied only when the
content starts with three backticks): the loop's keep condition
`in_json or (not line.strip().startswith("```"))` is true for every
non-fence line, so exactly the fence lines are removed. -/
def alignStripFences (content : String) : String :=
  if pyStartsWith content "```" then
    strJoin "\n"
      ((pySplit content "\n").filter (fun l => !(pyStartsWith (pyStrip l) "```")))
  else content

/-- The content `evaluate_alignment` hands to `json.loads`:
`response.content.strip()` with code fences stripped. -/
def alignPreprocess (raw : String) : String :=
  alignStripFences (pyStrip raw)

/-- The JSON-parsing, defaulting and enum-validation tail of
`AlignmentScorer.evaluate_alignment`, for a raw response text. -/
def evaluate_alignment_content (parse : JsonParser) (raw : String) :
    AlignmentResult :=
  match parse (alignPreprocess raw) with
  | none => ⟨"none", "tangential", .str "Failed to parse LLM output"⟩
  | some result =>
    let rel0 := (result.lookup "relevance").getD (.str "none")
    let str0 := (result.lookup "contribution_strength").getD (.str "tangential")
    let reasoning := (result.lookup "reasoning").getD (.str "No reasoning provided")
    let relevance :=
      match rel0 with
      | .str s => if s ∈ ["none", "indirect", "partial", "direct"] then s else "none"
      | .other => "none"
    let contribution_strength :=
      match str0 with
      | .str s => if s ∈ ["tangential", "supporting", "primary"] then s else "tangential"
      | .other => "tangential"
    ⟨relevance, contribution_strength, reasoning⟩

/-- The LLM boundary of alignment scoring: the raw response text for the
pair the prompt was built from. -/
abbrev AlignOracle := PairEntry → String

/-- The triples `score_all_alignments` writes for one pair: nothing when
the judged relevance is `"none"`, otherwise the `supportsObjective` edge
followed by the three `alignment_{obj}_…` property triples. -/
def pairWrites (parse : JsonParser) (oracle : AlignOracle) (e : PairEntry) :
    List Triple :=
  let res := evaluate_alignment_content parse (oracle e)
  if res.relevance ≠ "none" then
    [(bitaURI e.tgId, bitaURI "supportsObjective", bitaURI e.objId),
     (bitaURI e.tgId, bitaURI ("alignment_" ++ e.objId ++ "_relevance"),
       .litStr res.relevance),
     (bitaURI e.tgId, bitaURI ("alignment_" ++ e.objId ++ "_strength"),
       .litStr res.contribution_strength),
     (bitaURI e.tgId, bitaURI ("alignment_" ++ e.objId ++ "_reasoning"),
       .litStr (jsonLex res.reasoning))]
  else []

/-- `AlignmentScorer.score_all_alignments`: the pairs (with their
properties) are prefetched before the loop, then each pair's writes are
added in turn. -/
def score_all_alignments (parse : JsonParser) (oracle : AlignOracle)
    (g : KnowledgeGraph) : KnowledgeGraph :=
  (get_strategy_action_pairs g).foldl
    (fun acc e => (pairWrites parse oracle e).foldl Graph.add acc) g

/-!  ## Pipeline state (`src/core/pipeline_state.py`)  -/

/-- A snapshot captured by `PipelineState.capture_snapshot` (the fields
`get_kg_diff` reads; the serialized Turtle copy is modelled by the triple
set it denotes, parse∘serialize being the identity on it). -/
structure Snapshot where
  layer : Int
  label : String
  triple_count : Nat
  node_counts : List (String × Nat)
  density : ℚ
  turtle : KnowledgeGraph
deriving DecidableEq, Repr

/-- `PipelineState._snapshots`, in capture order. -/
structure PipelineState where
  snapshots : List Snapshot
deriving DecidableEq, Repr

/-- The node-type histogram of `capture_snapshot`: counts of `rdf:type`
triples per type name, keyed in first-appearance order. -/
def nodeCounts (g : KnowledgeGraph) : List (String × Nat) :=
  let types := g.triples.filterMap (fun t =>
    if t.2.1 = rdfTypeURI then some (termKey t.2.2) else none)
  types.dedup.map (fun ty => (ty, (types.filter (fun x => x = ty)).length))

/-- The edge histogram total of `capture_snapshot`: non-`rdf:type`
triples whose object is a `URIRef`. -/
def totalEdges (g : KnowledgeGraph) : Nat :=
  (g.triples.filter (fun t =>
    t.2.1 ≠ rdfTypeURI && match t.2.2 with | .uri _ => true | _ => false)).length

/-- `PipelineState.capture_snapshot`. -/
def capture_snapshot (st : PipelineState) (g : KnowledgeGraph)
    (layer : Int) (label : String) : PipelineState :=
  let nc := nodeCounts g
  let total_nodes := (nc.map (fun p => p.2)).sum
  let total_edges := totalEdges g
  let density : ℚ :=
    if 1 < total_nodes then
      pyRound ((total_edges : ℚ) / ((total_nodes : ℚ) * ((total_nodes : ℚ) - 1))) 6
    else 0
  ⟨st.snapshots ++ [⟨layer, label, g.triples.length, nc, density, g⟩]⟩

/-- `PipelineState.get_snapshot`: the first snapshot with the layer. -/
def get_snapshot (st : PipelineState) (layer : Int) : Option Snapshot :=
  st.snapshots.find? (fun s => s.layer = layer)

/-- The payload of a successful `get_kg_diff`. -/
structure KgDiffData where
  layer_before : Int
  layer_after : Int
  triples_before : Nat
  triples_after : Nat
  new_triple_count : Nat
  removed_triple_count : Nat
  node_type_changes : List (String × Nat × Nat × Int)
  density_before : ℚ
  density_after : ℚ
deriving DecidableEq, Repr

/-- What `PipelineState.get_kg_diff` returns: either the ordinary diff
dict, or the ordinary dict `{"error": msg}` — the function raises
nothing. -/
inductive KgDiffResult where
  | errorDict (msg : String)
  | diffDict (d : KgDiffData)
deriving DecidableEq, Repr

/-- `PipelineState.get_kg_diff`. -/
def get_kg_diff (st : PipelineState) (layer_before layer_after : Int) :
    KgDiffResult :=
  match get_snapshot st layer_before, get_snapshot st layer_after with
  | some sb, some sa =>
    let tb := sb.turtle.triples
    let ta := sa.turtle.triples
    let all_types := ((sb.node_counts.map (fun p => p.1)) ++
      (sa.node_counts.map (fun p => p.1))).dedup
    .diffDict
      ⟨layer_before, layer_after, sb.triple_count, sa.triple_count,
        ((ta.filter (fun t => t ∉ tb)).dedup).length,
        ((tb.filter (fun t => t ∉ ta)).dedup).length,
        all_types.filterMap (fun ty =>
          let before_count := ((sb.node_counts.lookup ty).getD 0)
          let after_count := ((sa.node_counts.lookup ty).getD 0)
          if before_count ≠ after_count then
            some (ty, before_count, after_count,
              (after_count : Int) - (before_count : Int))
          else none),
        sb.density, sa.density⟩
  | _, _ =>
    .errorDict ("Missing snapshot(s): before=" ++ toString layer_before ++
      ", after=" ++ toString layer_after)

/-!  ## Basic facts about strings and the triple store  -/

theorem strData_append (a b : String) : (a ++ b).data = a.data ++ b.data := rfl

theorem strOfData_inj {s t : String} (h : s.data = t.data) : s = t :=
  String.ext h

theorem strApp_left_cancel {a b c : String} (h : a ++ b = a ++ c) : b = c := by
  apply strOfData_inj
  have h2 := congrArg String.data h
  rw [strData_append, strData_append] at h2
  exact List.append_cancel_left h2

theorem strApp_right_cancel {a b c : String} (h : a ++ c = b ++ c) : a = b := by
  apply strOfData_inj
  have h2 := congrArg String.data h
  rw [strData_append, strData_append] at h2
  exact List.append_cancel_right h2

theorem bitaURI_inj {a b : String} (h : bitaURI a = bitaURI b) : a = b := by
  simp only [bitaURI, Term.uri.injEq] at h
  exact strApp_left_cancel h

theorem mem_graphAdd (g : KnowledgeGraph) (t x : Triple) :
    x ∈ (Graph.add g t).triples ↔ x ∈ g.triples ∨ x = t := by
  unfold Graph.add
  split
  · rename_i h
    constructor
    · exact Or.inl
    · rintro (hx | rfl)
      · exact hx
      · exact h
  · simp [List.mem_append]

theorem graphAdd_of_mem {g : KnowledgeGraph} {t : Triple}
    (h : t ∈ g.triples) : Graph.add g t = g := by
  simp [Graph.add, h]

theorem mem_foldAdd (ts : List Triple) (g : KnowledgeGraph) (x : Triple) :
    x ∈ ((ts.foldl Graph.add g).triples) ↔ x ∈ g.triples ∨ x ∈ ts := by
  induction ts generalizing g with
  | nil => simp
  | cons t rest ih =>
    simp only [List.foldl_cons, ih, mem_graphAdd, List.mem_cons]
    tauto

theorem foldAdd_of_subset {ts : List Triple} {g : KnowledgeGraph}
    (h : ∀ x ∈ ts, x ∈ g.triples) : ts.foldl Graph.add g = g := by
  induction ts generalizing g with
  | nil => rfl
  | cons t rest ih =>
    simp only [List.foldl_cons]
    rw [graphAdd_of_mem (h t (List.mem_cons_self t rest))]
    exact ih (fun x hx => h x (List.mem_cons_of_mem t hx))

/-!  ## The claims  -/

/-- C9.  `add_entity` is idempotent: a second call with identical key,
type and properties leaves the triple set unchanged; likewise a repeated
`add_relationship` of the same (subject, relation, object) triple. -/
theorem spec_c9_idempotent_upsert (g : KnowledgeGraph)
    (k t : String) (p : List (String × PyValue)) (s r o : String) :
    add_entity (add_entity g k t p) k t p = add_entity g k t p ∧
      add_relationship (add_relationship g s r o) s r o =
        add_relationship g s r o := by
  constructor
  · exact foldAdd_of_subset (fun x hx => (mem_foldAdd _ g x).2 (Or.inr hx))
  · exact graphAdd_of_mem ((mem_graphAdd _ _ _).2 (Or.inr rfl))

/-- C8.  The categorical score tables match the specification entry for
entry, and the causal-strength map has no `"none"` entry. -/
theorem spec_c8_score_tables :
    IMPORTANCE_MAP.lookup "critical" = some 100 ∧
    IMPORTANCE_MAP.lookup "high" = some 75 ∧
    IMPORTANCE_MAP.lookup "moderate" = some 50 ∧
    IMPORTANCE_MAP.lookup "low" = some 25 ∧
    IMPORTANCE_MAP.lookup "negligible" = some 0 ∧
    ALLOCATION_MAP.lookup "heavy" = some 100 ∧
    ALLOCATION_MAP.lookup "moderate" = some 70 ∧
    ALLOCATION_MAP.lookup "light" = some 40 ∧
    ALLOCATION_MAP.lookup "minimal" = some 10 ∧
    RELEVANCE_MAP.lookup "direct" = some 100 ∧
    RELEVANCE_MAP.lookup "partial" = some 60 ∧
    RELEVANCE_MAP.lookup "indirect" = some 30 ∧
    RELEVANCE_MAP.lookup "none" = some 0 ∧
    EGI_MAP.lookup "critical" = some 100 ∧
    EGI_MAP.lookup "high" = some 70 ∧
    EGI_MAP.lookup "moderate" = some 40 ∧
    EGI_MAP.lookup "low" = some 10 ∧
    CASCADE_MAP.lookup "strong" = some 100 ∧
    CASCADE_MAP.lookup "moderate" = some 60 ∧
    CASCADE_MAP.lookup "weak" = some 30 ∧
    CASCADE_MAP.lookup "none" = some 0 ∧
    SUFFICIENCY_MAP.lookup "fully_sufficient" = some 100 ∧
    SUFFICIENCY_MAP.lookup "adequate" = some 70 ∧
    SUFFICIENCY_MAP.lookup "insufficient" = some 40 ∧
    SUFFICIENCY_MAP.lookup "severely_lacking" = some 10 ∧
    CAUSAL_STRENGTH_MAP.lookup "strong" = some 1 ∧
    CAUSAL_STRENGTH_MAP.lookup "moderate" = some (1/2) ∧
    CAUSAL_STRENGTH_MAP.lookup "weak" = some (1/5) ∧
    CAUSAL_STRENGTH_MAP.lookup "none" = none := by
  repeat' apply And.intro
  all_goals rfl

/-- C3.  The weighted-priority formula does hold with an explicit risk
exposure (priority(critical, heavy, 50) = 90), but the Python default
argument is `risk_exposure = 0.5`, not the documented 50: a call that
leaves it unspecified yields 80.1, not 90. -/
theorem spec_c3_default_risk_bug :
    compute_priority_score (.str "critical") (.str "heavy") 50 = 90 ∧
    compute_priority_score_default (.str "critical") (.str "heavy") = 801/10 ∧
    compute_priority_score_default (.str "critical") (.str "heavy") ≠ 90 := by
  refine ⟨?_, ?_, ?_⟩ <;> norm_num [compute_priority_score_default,
    compute_priority_score, strLookup, IMPORTANCE_MAP, ALLOCATION_MAP]

/-- C2 counterexample.  A diff request against two uncaptured layers does
not fail: `get_kg_diff` returns the ordinary mapping
`{"error": "Missing snapshot(s): before=1, after=2"}` (the source has no
`MissingSnapshotError`, and nothing is raised). -/
theorem spec_c2_counterexample :
    get_kg_diff ⟨[]⟩ 1 2 = .errorDict "Missing snapshot(s): before=1, after=2" ∧
      ∀ d : KgDiffData, get_kg_diff ⟨[]⟩ 1 2 ≠ .diffDict d := by
  constructor
  · decide
  · intro d h
    rw [show get_kg_diff ⟨[]⟩ 1 2 =
      .errorDict "Missing snapshot(s): before=1, after=2" from by decide] at h
    exact KgDiffResult.noConfusion h

/-- C2 amended.  When either requested layer was never captured,
`get_kg_diff` returns (instead of raising) the ordinary mapping whose
single `"error"` entry names both requested layer numbers. -/
theorem spec_c2_missing_snapshot (st : PipelineState) (lb la : Int)
    (h : get_snapshot st lb = none ∨ get_snapshot st la = none) :
    get_kg_diff st lb la =
      .errorDict ("Missing snapshot(s): before=" ++ toString lb ++
        ", after=" ++ toString la) := by
  unfold get_kg_diff
  split
  · rcases h with h | h <;> simp_all
  · rfl

/-- C2 witness: both layers uncaptured in the empty pipeline state. -/
theorem spec_c2_missing_snapshot_witness :
    get_kg_diff ⟨[]⟩ 3 4 =
      .errorDict ("Missing snapshot(s): before=" ++ toString (3 : Int) ++
        ", after=" ++ toString (4 : Int)) :=
  spec_c2_missing_snapshot ⟨[]⟩ 3 4 (Or.inl rfl)

/-- `compute_causal_linkage_density` on the freshly constructed graph:
no goals, so every perspective pair is incomplete with density 0 and the
overall score is 0. -/
theorem cld_init : compute_causal_linkage_density kgInit =
    ⟨0, [("Learning & Growth -> Internal Process", 0),
         ("Internal Process -> Customer", 0),
         ("Customer -> Financial", 0)],
        [("Learning & Growth -> Internal Process", false),
         ("Internal Process -> Customer", false),
         ("Customer -> Financial", false)],
        ["Learning & Growth -> Internal Process",
         "Internal Process -> Customer",
         "Customer -> Financial"]⟩ := by
  have h : goalPerspectiveRows kgInit = [] := by decide
  have hmax : ∀ pr : String × String, pairMaxPossible kgInit pr = 0 := by
    intro pr
    simp [pairMaxPossible, goalsByPerspective, h]
  simp [compute_causal_linkage_density, cldLoop, BSC_CAUSAL_PAIRS, hmax, pairLabel]
  norm_num [pyRound, round_eq]

/-- C7.  `compute_all_metrics` is total and always returns the ten
documented keys in order; on the freshly constructed graph (only the
pre-seeded BSC perspectives) every aggregate takes its empty-input
default — in particular sai = 0.0 and coverage = 0.0. -/
theorem spec_c7_all_metrics_contract :
    (∀ g : KnowledgeGraph, (compute_all_metrics g).map Prod.fst =
      ["sai", "coverage", "avg_priority", "avg_kpi_utility", "avg_catchball",
       "egi", "cld", "prioritization_misalignments", "bsc_structural_gaps",
       "kipga"]) ∧
    compute_all_metrics kgInit =
      [("sai", .num 0), ("coverage", .num 0), ("avg_priority", .num 50),
       ("avg_kpi_utility", .num 0), ("avg_catchball", .num 70), ("egi", .num 30),
       ("cld", .cld ⟨0, [("Learning & Growth -> Internal Process", 0),
           ("Internal Process -> Customer", 0), ("Customer -> Financial", 0)],
          [("Learning & Growth -> Internal Process", false),
           ("Internal Process -> Customer", false), ("Customer -> Financial", false)],
          ["Learning & Growth -> Internal Process", "Internal Process -> Customer",
           "Customer -> Financial"]⟩),
       ("prioritization_misalignments", .mis []),
       ("bsc_structural_gaps", .strs []),
       ("kipga", .kipga ⟨[], [], [], [], []⟩)] := by
  constructor
  · intro g
    rfl
  · have h1 : typedSubjects kgInit "TaskGroup" = [] := by decide
    have h2 : typedSubjects kgInit "Objective" = [] := by decide
    have h3 : typedSubjects kgInit "KPI" = [] := by decide
    have h4 : predPairs kgInit "supportsObjective" = [] := by decide
    have h5 : goalPerspectiveRows kgInit = [] := by decide
    have h6 : typedSubjects kgInit "Goal" = [] := by decide
    simp only [compute_all_metrics, supportPairs, h1, h2, h3, h4, List.map_nil,
      List.dedup_nil, List.length_nil, ne_eq, not_true_eq_false, if_false,
      compute_sai, compute_coverage, catchballScores, List.flatMap_nil,
      detect_prioritization_misalignment, detect_bsc_structural_gaps,
      goalsByPerspective, h5, compute_kipga_matrix, objectiveGoalRows, h6,
      List.filterMap_nil, List.filter_nil, cld_init]
    norm_num [pyRound, round_eq]

/-- A JSON parser standing for `json.loads` succeeding on an alignment
response with relevance `"direct"`. -/
def parseDirect : JsonParser := fun _ =>
  some [("relevance", .str "direct"), ("contribution_strength", .str "primary"),
        ("reasoning", .str "ok")]

/-- A layer-1 graph: one critical Financial goal with one objective, one
task group with minimal allocation (the spec's end-to-end scenario). -/
def gC1base : KnowledgeGraph :=
  add_relationship
    (add_entity
      (add_relationship
        (add_entity
          (add_relationship
            (add_entity kgInit "G1" "Goal"
              [("label", .str "Goal One"), ("strategicImportance", .str "critical")])
            "G1" "bscPerspective" "BSC_Financial")
          "G1_O1" "Objective" [("label", .str "Objective One")])
        "G1" "hasObjective" "G1_O1")
      "TG1" "TaskGroup"
      [("label", .str "Task Group One"), ("resourceAllocation", .str "minimal")])
    "P1" "containsGroup" "TG1"

/-- The layer-2 graph: `score_all_alignments` has judged the single pair
`direct` and written the `supportsObjective` edge plus the three
alignment judgment properties. -/
def gC1 : KnowledgeGraph := score_all_alignments parseDirect (fun _ => "resp") gC1base

/-- C1.  On a graph holding an alignment pair written by alignment
scoring (a `supportsObjective` edge with its `alignment_…` properties),
the cascade/sufficiency pass of `analyze_completeness` queries
`supportsGoal` — a relation nothing ever writes — so it derives nothing:
whatever the oracle and parser do, the graph is unchanged and no
`cascade_{objectiveId}_strength` or `sufficiency_{objectiveId}_level`
property appears on the task group of the pair. -/
theorem spec_c1_cascade_queries_wrong_relation :
    supportPairs gC1 = [("TG1", "G1_O1")] ∧
    dictGet (get_entity_properties gC1 "TG1") "alignment_G1_O1_relevance" =
      some (.str "direct") ∧
    supportsGoalPairs gC1 = [] ∧
    (∀ parse : JsonParser, ∀ cascadeLlm suffLlm : PropsOracle,
      cascadeSufficiencyStep parse cascadeLlm suffLlm gC1 = gC1) ∧
    dictGet (get_entity_properties gC1 "TG1") "cascade_G1_O1_strength" = none ∧
    dictGet (get_entity_properties gC1 "TG1") "sufficiency_G1_O1_level" = none :=
  ⟨by decide, by decide, by decide, fun _ _ _ => rfl, by decide, by decide⟩

/-- A perspective pair with no possible links has no counted strengths. -/
theorem maxZero_strengths {g : KnowledgeGraph} {pr : String × String}
    (h : pairMaxPossible g pr = 0) : pairLinkStrengths g pr = [] := by
  rcases Nat.mul_eq_zero.1 h with h0 | h0
  · rw [List.length_eq_zero] at h0
    simp [pairLinkStrengths, h0]
  · rw [List.length_eq_zero] at h0
    simp [pairLinkStrengths, h0]

/-- The per-pair scores of the CLD loop: 0 for a pair with no possible
links, otherwise the rounded density. -/
theorem cldLoop_scores (g : KnowledgeGraph) (prs : List (String × String)) :
    (cldLoop g prs).scores = prs.map (fun pr => (pairLabel pr,
      if pairMaxPossible g pr = 0 then 0
      else pyRound ((pairLinkStrengths g pr).sum / (pairMaxPossible g pr : ℚ)) 4)) := by
  induction prs with
  | nil => rfl
  | cons pr rest ih =>
    by_cases h : pairMaxPossible g pr = 0 <;> simp [cldLoop, h, ih]

/-- The completeness flags of the CLD loop: a pair is complete exactly
when it has at least one counted link. -/
theorem cldLoop_completeness (g : KnowledgeGraph) (prs : List (String × String)) :
    (cldLoop g prs).completeness = prs.map (fun pr => (pairLabel pr,
      decide (pairLinkStrengths g pr ≠ []))) := by
  induction prs with
  | nil => rfl
  | cons pr rest ih =>
    by_cases h : pairMaxPossible g pr = 0
    · simp [cldLoop, h, ih, maxZero_strengths h]
    · simp only [cldLoop, h, if_false, ih]
      congr 1
      simp [List.length_pos, decide_eq_decide]

/-- The missing-chain labels of the CLD loop: exactly the pairs with no
counted link (whether possible links exist or not). -/
theorem cldLoop_missing (g : KnowledgeGraph) (prs : List (String × String)) :
    (cldLoop g prs).missing =
      (prs.filter (fun pr => (pairLinkStrengths g pr).isEmpty)).map pairLabel := by
  induction prs with
  | nil => rfl
  | cons pr rest ih =>
    by_cases h : pairMaxPossible g pr = 0
    · simp [cldLoop, h, ih, maxZero_strengths h]
    · by_cases h2 : (pairLinkStrengths g pr).length = 0 <;>
        simp_all [cldLoop, List.isEmpty_iff, List.length_eq_zero]

/-- The densities the CLD loop averages: only pairs with at least one
possible link contribute (a `continue` skips the rest). -/
theorem cldLoop_densities (g : KnowledgeGraph) (prs : List (String × String)) :
    (cldLoop g prs).densities =
      (prs.filter (fun pr => pairMaxPossible g pr ≠ 0)).map
        (fun pr => (pairLinkStrengths g pr).sum / (pairMaxPossible g pr : ℚ)) := by
  induction prs with
  | nil => rfl
  | cons pr rest ih =>
    by_cases h : pairMaxPossible g pr = 0 <;> simp [cldLoop, h, ih]

/-- The overall CLD score: the rounded product of the mean density over
the pairs that have possible links (not all three), and the fraction of
the three pairs with at least one counted link. -/
theorem cld_score_characterization (g : KnowledgeGraph) :
    (compute_causal_linkage_density g).cld_score =
      (if (BSC_CAUSAL_PAIRS.filter (fun pr => pairMaxPossible g pr ≠ 0)) = [] then 0
       else pyRound
        ((((BSC_CAUSAL_PAIRS.filter (fun pr => pairMaxPossible g pr ≠ 0)).map
            (fun pr => (pairLinkStrengths g pr).sum / (pairMaxPossible g pr : ℚ))).sum /
          ((BSC_CAUSAL_PAIRS.filter (fun pr => pairMaxPossible g pr ≠ 0)).length : ℚ)) *
          (((BSC_CAUSAL_PAIRS.filter (fun pr => pairLinkStrengths g pr ≠ [])).length : ℚ) / 3)) 4) := by
  simp only [compute_causal_linkage_density, cldLoop_densities, cldLoop_completeness]
  by_cases h : (BSC_CAUSAL_PAIRS.filter (fun pr => pairMaxPossible g pr ≠ 0)) = []
  · rw [if_pos h, h]
    norm_num [pyRound, round_eq]
  · rw [if_neg h]
    have h1 : ((BSC_CAUSAL_PAIRS.filter (fun pr => pairMaxPossible g pr ≠ 0)).map
        (fun pr => (pairLinkStrengths g pr).sum / (pairMaxPossible g pr : ℚ))) ≠ [] := by
      simpa [List.map_eq_nil_iff] using h
    rw [if_pos h1]
    have h2 : (BSC_CAUSAL_PAIRS.map (fun pr => (pairLabel pr,
        decide (pairLinkStrengths g pr ≠ [])))) ≠ [] := by
      simp [BSC_CAUSAL_PAIRS]
    rw [if_pos h2]
    congr 1
    have hfm : ((BSC_CAUSAL_PAIRS.map (fun pr => (pairLabel pr,
        decide (pairLinkStrengths g pr ≠ [])))).filter (fun e => e.2)) =
        (BSC_CAUSAL_PAIRS.filter (fun pr => pairLinkStrengths g pr ≠ [])).map
          (fun pr => (pairLabel pr, decide (pairLinkStrengths g pr ≠ []))) := by
      rw [List.filter_map]
      rfl
    rw [List.length_map, hfm, List.length_map, List.length_map]
    norm_num [BSC_CAUSAL_PAIRS]

/-- One Learning & Growth goal with a strong causal link to one Internal
Process goal; no Customer and no Financial goals. -/
def gC4 : KnowledgeGraph :=
  add_relationship
    (add_relationship
      (add_entity
        (add_entity kgInit "G_LG" "Goal"
          [("label", .str "Learning goal"),
           ("causalLink_G_IP_strength", .str "strong")])
        "G_IP" "Goal" [("label", .str "Process goal")])
      "G_LG" "bscPerspective" "BSC_LearningGrowth")
    "G_IP" "bscPerspective" "BSC_InternalProcess"

/-- C4 counterexample.  On `gC4` the code's own per-pair densities are 1,
0, 0 and exactly one of the three pairs has a link, so the claimed
formula mean-over-all-three-pairs × fraction gives round((1/3)·(1/3), 4)
= 0.1111; the code instead averages only the one pair with possible
links and returns 0.3333. -/
theorem spec_c4_counterexample :
    (compute_causal_linkage_density gC4).perspective_pair_scores =
      [("Learning & Growth -> Internal Process", 1),
       ("Internal Process -> Customer", 0),
       ("Customer -> Financial", 0)] ∧
    (compute_causal_linkage_density gC4).chain_completeness =
      [("Learning & Growth -> Internal Process", true),
       ("Internal Process -> Customer", false),
       ("Customer -> Financial", false)] ∧
    (compute_causal_linkage_density gC4).cld_score = 3333/10000 ∧
    pyRound ((((1 : ℚ) + 0 + 0) / 3) * (1/3)) 4 = 1111/10000 ∧
    (3333/10000 : ℚ) ≠ 1111/10000 := by
  have hlg : goalsByPerspective gC4 "Learning & Growth" =
      [⟨"G_LG", .str "Learning goal",
        [("label", .str "Learning goal"),
         ("causalLink_G_IP_strength", .str "strong"),
         ("bscPerspective", .str "BSC_LearningGrowth")]⟩] := by decide
  have hip : goalsByPerspective gC4 "Internal Process" =
      [⟨"G_IP", .str "Process goal",
        [("label", .str "Process goal"),
         ("bscPerspective", .str "BSC_InternalProcess")]⟩] := by decide
  have hc : goalsByPerspective gC4 "Customer" = [] := by decide
  have hf : goalsByPerspective gC4 "Financial" = [] := by decide
  have hs : pairLinkStrengths gC4 ("Learning & Growth", "Internal Process") = [1] := by
    decide
  refine ⟨?_, ?_, ?_, ?_, ?_⟩
  · simp [compute_causal_linkage_density, cldLoop, BSC_CAUSAL_PAIRS,
      pairMaxPossible, hlg, hip, hc, hf, hs, pairLabel]
    norm_num [pyRound, round_eq]
  · simp [compute_causal_linkage_density, cldLoop, BSC_CAUSAL_PAIRS,
      pairMaxPossible, hlg, hip, hc, hf, hs, pairLabel]
  · simp [compute_causal_linkage_density, cldLoop, BSC_CAUSAL_PAIRS,
      pairMaxPossible, hlg, hip, hc, hf, hs, pairLabel]
    norm_num [pyRound, round_eq]
  · norm_num [pyRound, round_eq]
  · norm_num

/-- C4 amended.  CLD never divides by zero: a perspective pair with no
possible links is marked incomplete with density 0 and listed missing,
but it is excluded from the density mean (rather than contributing 0 to
it); the overall CLD is the rounded product of the mean density over the
pairs that do have possible links and the fraction of all three pairs
having at least one actual link (0 when no pair has possible links). -/
theorem spec_c4_cld_incomplete_pairs (g : KnowledgeGraph) :
    (compute_causal_linkage_density g).perspective_pair_scores =
      BSC_CAUSAL_PAIRS.map (fun pr => (pairLabel pr,
        if pairMaxPossible g pr = 0 then 0
        else pyRound ((pairLinkStrengths g pr).sum / (pairMaxPossible g pr : ℚ)) 4)) ∧
    (compute_causal_linkage_density g).chain_completeness =
      BSC_CAUSAL_PAIRS.map (fun pr => (pairLabel pr,
        decide (pairLinkStrengths g pr ≠ []))) ∧
    (compute_causal_linkage_density g).missing_chains =
      (BSC_CAUSAL_PAIRS.filter (fun pr => (pairLinkStrengths g pr).isEmpty)).map
        pairLabel ∧
    (compute_causal_linkage_density g).cld_score =
      (if (BSC_CAUSAL_PAIRS.filter (fun pr => pairMaxPossible g pr ≠ 0)) = [] then 0
       else pyRound
        ((((BSC_CAUSAL_PAIRS.filter (fun pr => pairMaxPossible g pr ≠ 0)).map
            (fun pr => (pairLinkStrengths g pr).sum / (pairMaxPossible g pr : ℚ))).sum /
          ((BSC_CAUSAL_PAIRS.filter (fun pr => pairMaxPossible g pr ≠ 0)).length : ℚ)) *
          (((BSC_CAUSAL_PAIRS.filter (fun pr => pairLinkStrengths g pr ≠ [])).length : ℚ) / 3)) 4) :=
  ⟨by simp [compute_causal_linkage_density, cldLoop_scores],
   by simp [compute_causal_linkage_density, cldLoop_completeness],
   by simp [compute_causal_linkage_density, cldLoop_missing],
   cld_score_characterization g⟩

/-- The claim's overall-severity thresholds on the mean severity weight:
≥70 critical, ≥40 high, ≥20 moderate, else low. -/
def overallSeverityOf (avg : ℚ) : String :=
  if 70 ≤ avg then "critical"
  else if 40 ≤ avg then "high"
  else if 20 ≤ avg then "moderate"
  else "low"

/-- The recorded gaps are exactly the per-row gap records with positive
gap score. -/
theorem gaps_as_filter (g : KnowledgeGraph) :
    (analyze_execution_gap g).gaps =
      ((supportPairs g).map (execGapRecord g)).filter (fun r => 0 < r.gap_score) := by
  show ((supportPairs g).filterMap fun row =>
      let r := execGapRecord g row
      if 0 < r.gap_score then some r else none) = _
  induction supportPairs g with
  | nil => rfl
  | cons row rest ih =>
    by_cases h : 0 < (execGapRecord g row).gap_score <;>
      simp [List.filterMap_cons, List.filter_cons, h, ih]

/-- C5.  Execution-gap analysis on any graph: per `supportsObjective`
row the gap is importance score (parent goal, default moderate) minus
allocation score (task group, default moderate); the severity bucket
sends 41 to critical, 40 and 21 to high, 20 and 1 to moderate, and every
non-positive gap to low; only positive gaps are recorded; and the overall
severity buckets the mean of the recorded gaps' severity weights at
≥70/≥40/≥20 (low when nothing is recorded). -/
theorem spec_c5_execution_gap (g : KnowledgeGraph) :
    (analyze_execution_gap g).gaps =
      ((supportPairs g).map (execGapRecord g)).filter (fun r => 0 < r.gap_score) ∧
    (analyze_execution_gap g).total_gaps =
      (((supportPairs g).map (execGapRecord g)).filter (fun r => 0 < r.gap_score)).length ∧
    (∀ row : String × String,
      (execGapRecord g row).gap_score =
        (strLookup IMPORTANCE_MAP (rowImportanceAllocation g row).2.1).getD 50 -
          (strLookup ALLOCATION_MAP (rowImportanceAllocation g row).2.2).getD 70 ∧
      (execGapRecord g row).severity = gapSeverityOf (execGapRecord g row).gap_score) ∧
    gapSeverityOf 41 = "critical" ∧ gapSeverityOf 40 = "high" ∧
    gapSeverityOf 21 = "high" ∧ gapSeverityOf 20 = "moderate" ∧
    gapSeverityOf 1 = "moderate" ∧ (∀ z : Int, z ≤ 0 → gapSeverityOf z = "low") ∧
    severityScores.lookup "critical" = some 100 ∧
    severityScores.lookup "high" = some 70 ∧
    severityScores.lookup "moderate" = some 40 ∧
    severityScores.lookup "low" = some 10 ∧
    (analyze_execution_gap g).overall_severity =
      (if (analyze_execution_gap g).gaps = [] then "low"
       else overallSeverityOf
        ((((analyze_execution_gap g).gaps.map
            (fun r => (severityScores.lookup r.severity).getD 0)).sum : Int) /
          ((analyze_execution_gap g).gaps.length : ℚ))) := by
  refine ⟨gaps_as_filter g, ?_, fun row => ⟨rfl, rfl⟩, by decide, by decide,
    by decide, by decide, by decide, ?_, by decide, by decide, by decide,
    by decide, rfl⟩
  · show ((supportPairs g).filterMap fun row =>
        let r := execGapRecord g row
        if 0 < r.gap_score then some r else none).length = _
    rw [show ((supportPairs g).filterMap fun row =>
        let r := execGapRecord g row
        if 0 < r.gap_score then some r else none) =
      (analyze_execution_gap g).gaps from rfl, gaps_as_filter g]
  · intro z hz
    have h1 : ¬ (40 : Int) < z := by omega
    have h2 : ¬ (20 : Int) < z := by omega
    have h3 : ¬ (0 : Int) < z := by omega
    simp [gapSeverityOf, h1, h2, h3]

/-!  ## String shape facts for the alignment write predicates  -/

theorem alignPred_ne_supports (o sfx : String) :
    "alignment_" ++ (o ++ sfx) ≠ "supportsObjective" := by
  intro h
  have hd : ("alignment_" ++ (o ++ sfx)).data.head? = some 'a' := by
    rw [strData_append]
    have h2 : "alignment_".data = 'a' :: "lignment_".data := by decide
    rw [h2]
    rfl
  rw [h] at hd
  exact absurd hd (by decide)

theorem strLast_app (a b : String) (hb : b.data ≠ []) :
    (a ++ b).data.getLast? = b.data.getLast? := by
  rw [strData_append]
  exact List.getLast?_append_of_ne_nil _ hb

theorem alignPred_last (o sfx : String) (hs : sfx.data ≠ []) :
    ("alignment_" ++ (o ++ sfx)).data.getLast? = sfx.data.getLast? := by
  have h1 : (o ++ sfx).data ≠ [] := by
    rw [strData_append]
    intro h
    exact hs (List.append_eq_nil.1 h).2
  rw [strLast_app _ _ h1, strLast_app _ _ hs]

theorem alignPred_ne_of_sfx {s1 s2 : String} (o o' : String)
    (h1 : s1.data ≠ []) (h2 : s2.data ≠ [])
    (hne : s1.data.getLast? ≠ s2.data.getLast?) :
    "alignment_" ++ (o ++ s1) ≠ "alignment_" ++ (o' ++ s2) := fun h =>
  hne (by rw [← alignPred_last o s1 h1, ← alignPred_last o' s2 h2, h])

theorem alignPred_inj {o o' : String} (sfx : String)
    (h : "alignment_" ++ (o ++ sfx) = "alignment_" ++ (o' ++ sfx)) : o = o' :=
  strApp_right_cancel (strApp_left_cancel h)

example (o o' : String) :
    "alignment_" ++ (o ++ "_relevance") ≠ "alignment_" ++ (o' ++ "_strength") :=
  alignPred_ne_of_sfx o o' (by decide) (by decide) (by decide)

theorem mem_scoreAll (parse : JsonParser) (oracle : AlignOracle)
    (es : List PairEntry) (h : KnowledgeGraph) (x : Triple) :
    x ∈ ((es.foldl (fun acc e => (pairWrites parse oracle e).foldl Graph.add acc) h).triples) ↔
      x ∈ h.triples ∨ ∃ e ∈ es, x ∈ pairWrites parse oracle e := by
  induction es generalizing h with
  | nil => simp
  | cons e rest ih =>
    simp only [List.foldl_cons, ih, mem_foldAdd, List.mem_cons]
    constructor
    · rintro ((hx | hx) | ⟨e', he', hw⟩)
      · exact Or.inl hx
      · exact Or.inr ⟨e, Or.inl rfl, hx⟩
      · exact Or.inr ⟨e', Or.inr he', hw⟩
    · rintro (hx | ⟨e', (rfl | he'), hw⟩)
      · exact Or.inl (Or.inl hx)
      · exact Or.inl (Or.inr hw)
      · exact Or.inr ⟨e', he', hw⟩

theorem no_writes_for_none_pair (parse : JsonParser) (oracle : AlignOracle)
    (g : KnowledgeGraph) (tg obj : String)
    (hnone : ∀ e ∈ get_strategy_action_pairs g, e.tgId = tg → e.objId = obj →
      (evaluate_alignment_content parse (oracle e)).relevance = "none")
    (x : Triple)
    (hshape : x.1 = bitaURI tg ∧
      ((x.2.1 = bitaURI "supportsObjective" ∧ x.2.2 = bitaURI obj) ∨
        x.2.1 = bitaURI ("alignment_" ++ (obj ++ "_relevance")) ∨
        x.2.1 = bitaURI ("alignment_" ++ (obj ++ "_strength")) ∨
        x.2.1 = bitaURI ("alignment_" ++ (obj ++ "_reasoning"))))
    (hx : x ∈ (score_all_alignments parse oracle g).triples) :
    x ∈ g.triples := by
  rcases (mem_scoreAll parse oracle (get_strategy_action_pairs g) g x).1 hx with
    hg | ⟨e, he, hw⟩
  · exact hg
  · exfalso
    unfold pairWrites at hw
    by_cases hrel : (evaluate_alignment_content parse (oracle e)).relevance = "none"
    · simp [hrel] at hw
    · simp only [ne_eq, hrel, not_false_eq_true, if_true, List.mem_cons,
        List.mem_singleton, if_pos] at hw
      obtain ⟨hsub, hkind⟩ := hshape
      have tgEq : ∀ {s : String}, x.1 = bitaURI s → s = tg := by
        intro s hs
        exact bitaURI_inj (hs ▸ hsub ▸ rfl)
      rcases hw with hw | hw | hw | hw | hw
      rotate_left 4
      · exact (List.not_mem_nil x) hw
      all_goals (rw [Prod.ext_iff, Prod.ext_iff] at hw; obtain ⟨h1, h2, h3⟩ := hw)
      · -- x is the supportsObjective edge of pair e
        rcases hkind with ⟨hk1, hk2⟩ | hk | hk | hk
        · have heq1 : e.tgId = tg := bitaURI_inj (h1.symm.trans hsub)
          have heq2 : e.objId = obj := bitaURI_inj (h3.symm.trans hk2)
          exact hrel (hnone e he heq1 heq2)
        all_goals
          (have hp := (h2.symm.trans hk)
           simp only [bitaURI, Term.uri.injEq] at hp
           exact alignPred_ne_supports _ _ (strApp_left_cancel hp.symm))
      · -- x is the alignment_…_relevance triple of pair e
        rcases hkind with ⟨hk1, hk2⟩ | hk | hk | hk
        · have hp := (h2.symm.trans hk1)
          simp only [bitaURI, Term.uri.injEq] at hp
          exact alignPred_ne_supports _ _ (strApp_left_cancel hp)
        · have hp := (h2.symm.trans hk)
          simp only [bitaURI, Term.uri.injEq] at hp
          have hobj : e.objId = obj := alignPred_inj _ (strApp_left_cancel hp)
          have heq1 : e.tgId = tg := bitaURI_inj (h1.symm.trans hsub)
          exact hrel (hnone e he heq1 hobj)
        · have hp := (h2.symm.trans hk)
          simp only [bitaURI, Term.uri.injEq] at hp
          exact alignPred_ne_of_sfx _ _ (by decide) (by decide) (by decide)
            (strApp_left_cancel hp)
        · have hp := (h2.symm.trans hk)
          simp only [bitaURI, Term.uri.injEq] at hp
          exact alignPred_ne_of_sfx _ _ (by decide) (by decide) (by decide)
            (strApp_left_cancel hp)
      · -- x is the alignment_…_strength triple of pair e
        rcases hkind with ⟨hk1, hk2⟩ | hk | hk | hk
        · have hp := (h2.symm.trans hk1)
          simp only [bitaURI, Term.uri.injEq] at hp
          exact alignPred_ne_supports _ _ (strApp_left_cancel hp)
        · have hp := (h2.symm.trans hk)
          simp only [bitaURI, Term.uri.injEq] at hp
          exact alignPred_ne_of_sfx _ _ (by decide) (by decide) (by decide)
            (strApp_left_cancel hp)
        · have hp := (h2.symm.trans hk)
          simp only [bitaURI, Term.uri.injEq] at hp
          have hobj : e.objId = obj := alignPred_inj _ (strApp_left_cancel hp)
          have heq1 : e.tgId = tg := bitaURI_inj (h1.symm.trans hsub)
          exact hrel (hnone e he heq1 hobj)
        · have hp := (h2.symm.trans hk)
          simp only [bitaURI, Term.uri.injEq] at hp
          exact alignPred_ne_of_sfx _ _ (by decide) (by decide) (by decide)
            (strApp_left_cancel hp)
      · -- x is the alignment_…_reasoning triple of pair e
        rcases hkind with ⟨hk1, hk2⟩ | hk | hk | hk
        · have hp := (h2.symm.trans hk1)
          simp only [bitaURI, Term.uri.injEq] at hp
          exact alignPred_ne_supports _ _ (strApp_left_cancel hp)
        · have hp := (h2.symm.trans hk)
          simp only [bitaURI, Term.uri.injEq] at hp
          exact alignPred_ne_of_sfx _ _ (by decide) (by decide) (by decide)
            (strApp_left_cancel hp)
        · have hp := (h2.symm.trans hk)
          simp only [bitaURI, Term.uri.injEq] at hp
          exact alignPred_ne_of_sfx _ _ (by decide) (by decide) (by decide)
            (strApp_left_cancel hp)
        · have hp := (h2.symm.trans hk)
          simp only [bitaURI, Term.uri.injEq] at hp
          have hobj : e.objId = obj := alignPred_inj _ (strApp_left_cancel hp)
          have heq1 : e.tgId = tg := bitaURI_inj (h1.symm.trans hsub)
          exact hrel (hnone e he heq1 hobj)

/-- C6.  When the oracle's response is not parseable JSON, the alignment
judgment returns relevance "none" and contribution_strength "tangential"
(no exception is modelled or needed: the parse failure is the `none`
branch); and for any (task group, objective) pair each of whose
judgments has relevance "none", the scoring pass adds neither the
`supportsObjective` edge nor any `alignment_{obj}_…` property triple for
that pair. -/
theorem spec_c6_malformed_oracle_output
    (parse : JsonParser) (resp : String) (g : KnowledgeGraph)
    (oracle : AlignOracle) (tg obj : String)
    (hfail : parse (alignPreprocess resp) = none)
    (hnone : ∀ e ∈ get_strategy_action_pairs g, e.tgId = tg → e.objId = obj →
      (evaluate_alignment_content parse (oracle e)).relevance = "none") :
    evaluate_alignment_content parse resp =
      ⟨"none", "tangential", .str "Failed to parse LLM output"⟩ ∧
    ((bitaURI tg, bitaURI "supportsObjective", bitaURI obj) ∈
        (score_all_alignments parse oracle g).triples ↔
      (bitaURI tg, bitaURI "supportsObjective", bitaURI obj) ∈ g.triples) ∧
    (∀ v : Term,
      ((bitaURI tg, bitaURI ("alignment_" ++ (obj ++ "_relevance")), v) ∈
          (score_all_alignments parse oracle g).triples ↔
        (bitaURI tg, bitaURI ("alignment_" ++ (obj ++ "_relevance")), v) ∈ g.triples) ∧
      ((bitaURI tg, bitaURI ("alignment_" ++ (obj ++ "_strength")), v) ∈
          (score_all_alignments parse oracle g).triples ↔
        (bitaURI tg, bitaURI ("alignment_" ++ (obj ++ "_strength")), v) ∈ g.triples) ∧
      ((bitaURI tg, bitaURI ("alignment_" ++ (obj ++ "_reasoning")), v) ∈
          (score_all_alignments parse oracle g).triples ↔
        (bitaURI tg, bitaURI ("alignment_" ++ (obj ++ "_reasoning")), v) ∈ g.triples)) := by
  refine ⟨?_, ?_, fun v => ⟨?_, ?_, ?_⟩⟩
  · unfold evaluate_alignment_content
    rw [hfail]
  · exact ⟨fun hx => no_writes_for_none_pair parse oracle g tg obj hnone _
      ⟨rfl, Or.inl ⟨rfl, rfl⟩⟩ hx,
      fun hx => (mem_scoreAll parse oracle _ g _).2 (Or.inl hx)⟩
  · exact ⟨fun hx => no_writes_for_none_pair parse oracle g tg obj hnone _
      ⟨rfl, Or.inr (Or.inl rfl)⟩ hx,
      fun hx => (mem_scoreAll parse oracle _ g _).2 (Or.inl hx)⟩
  · exact ⟨fun hx => no_writes_for_none_pair parse oracle g tg obj hnone _
      ⟨rfl, Or.inr (Or.inr (Or.inl rfl))⟩ hx,
      fun hx => (mem_scoreAll parse oracle _ g _).2 (Or.inl hx)⟩
  · exact ⟨fun hx => no_writes_for_none_pair parse oracle g tg obj hnone _
      ⟨rfl, Or.inr (Or.inr (Or.inr rfl))⟩ hx,
      fun hx => (mem_scoreAll parse oracle _ g _).2 (Or.inl hx)⟩

/-- C6 witness: the response `"not json"` with an always-failing parser
on the one-pair layer-1 graph `gC1base`. -/
theorem spec_c6_malformed_oracle_output_witness :
    evaluate_alignment_content (fun _ => none) "not json" =
      ⟨"none", "tangential", .str "Failed to parse LLM output"⟩ ∧
    ((bitaURI "TG1", bitaURI "supportsObjective", bitaURI "G1_O1") ∈
        (score_all_alignments (fun _ => none) (fun _ => "not json") gC1base).triples ↔
      (bitaURI "TG1", bitaURI "supportsObjective", bitaURI "G1_O1") ∈
        gC1base.triples) ∧
    ((bitaURI "TG1", bitaURI ("alignment_" ++ ("G1_O1" ++ "_relevance")),
        Term.litStr "direct") ∈
        (score_all_alignments (fun _ => none) (fun _ => "not json") gC1base).triples ↔
      (bitaURI "TG1", bitaURI ("alignment_" ++ ("G1_O1" ++ "_relevance")),
        Term.litStr "direct") ∈ gC1base.triples) := by
  have h := spec_c6_malformed_oracle_output (fun _ => none) "not json" gC1base
    (fun _ => "not json") "TG1" "G1_O1" rfl (fun e _ _ _ => rfl)
  exact ⟨h.1, h.2.1, (h.2.2 (Term.litStr "direct")).1⟩

/-!  ## Round-trip of entity properties (claim C10)  -/

theorem foldl_no_hash (l : List Char) (acc : List Char)
    (h : ∀ c ∈ l, c ≠ '#') :
    l.foldl (fun acc c => if c = '#' then [] else acc ++ [c]) acc = acc ++ l := by
  induction l generalizing acc with
  | nil => simp
  | cons c rest ih =>
    have hc : c ≠ '#' := h c (List.mem_cons_self c rest)
    simp only [List.foldl_cons, hc, if_false]
    rw [ih _ (fun d hd => h d (List.mem_cons_of_mem c hd))]
    simp

theorem afterHash_bita {n : String} (h : n.data.contains '#' = false) :
    afterHash (BITA ++ n) = n := by
  have hmem : ∀ c ∈ n.data, c ≠ '#' := by
    intro c hc he
    subst he
    rw [List.contains_eq_any_beq] at h
    simp at h
    exact (h '#' hc) rfl
  show (⟨((BITA ++ n).data.foldl
    (fun acc c => if c = '#' then [] else acc ++ [c]) [])⟩ : String) = n
  rw [strData_append, List.foldl_append]
  have h1 : (BITA.data.foldl (fun acc c => if c = '#' then [] else acc ++ [c]) []) = [] := by
    decide
  rw [h1, foldl_no_hash _ _ hmem]
  cases n
  rfl

theorem termToPython_valueTerm {v : PyValue}
    (hval : ∀ s, v = PyValue.str s → s.data.contains '#' = false) :
    termToPython (valueTerm v) = v := by
  cases v with
  | str s =>
    by_cases hr : looksLikeEntityRef s
    · simp [valueTerm, hr, termToPython, afterHash_bita (hval s rfl)]
    · simp [valueTerm, hr, termToPython]
  | bool b => rfl
  | int n => rfl
  | float q => rfl

theorem termToPython_plainLit (v : PyValue) : termToPython (plainLit v) = v := by
  cases v <;> rfl

theorem bita_ne_rdfType (n : String) : BITA ++ n ≠ RDF_TYPE := by
  intro h
  have h2 := congrArg (fun s => s.data.take 12) h
  simp only [strData_append] at h2
  rw [List.take_append_of_le_length (by decide)] at h2
  exact absurd h2 (by decide)

theorem bita_ne_rdfsLabel (n : String) : BITA ++ n ≠ RDFS_LABEL := by
  intro h
  have h2 := congrArg (fun s => s.data.take 12) h
  simp only [strData_append] at h2
  rw [List.take_append_of_le_length (by decide)] at h2
  exact absurd h2 (by decide)

theorem subj_entityTriples {k t : String} {p : List (String × PyValue)} :
    ∀ x ∈ entityTriples k t p, x.1 = bitaURI k := by
  intro x hx
  unfold entityTriples at hx
  rcases List.mem_cons.1 hx with rfl | hx'
  · rfl
  rcases List.mem_append.1 hx' with hx2 | hx2
  · rcases hlab : p.lookup "label" with _ | v <;> rw [hlab] at hx2
    · cases hx2
    · rcases List.mem_singleton.1 hx2 with rfl
      rfl
  · obtain ⟨pr, _, rfl⟩ := List.mem_map.1 hx2
    rfl

theorem nodup_entityTriples {k t : String} {p : List (String × PyValue)}
    (hnd : (p.map Prod.fst).Nodup) : (entityTriples k t p).Nodup := by
  have hfilter : ((p.filter (fun pr => pr.1 ≠ "label")).map Prod.fst).Nodup :=
    hnd.sublist ((List.filter_sublist p).map Prod.fst)
  have hinj : ∀ a ∈ p.filter (fun pr => pr.1 ≠ "label"),
      ∀ b ∈ p.filter (fun pr => pr.1 ≠ "label"), a.1 = b.1 → a = b :=
    List.inj_on_of_nodup_map hfilter
  have hprops : ((p.filter (fun pr => pr.1 ≠ "label")).map
      (fun pr => ((bitaURI k, bitaURI pr.1, valueTerm pr.2) : Triple))).Nodup := by
    refine List.Nodup.map_on ?_ (hfilter.of_map Prod.fst)
    intro a ha b hb he
    rw [Prod.ext_iff, Prod.ext_iff] at he
    exact hinj a ha b hb (bitaURI_inj he.2.1)
  unfold entityTriples
  rw [List.nodup_cons]
  constructor
  · intro hmem
    rcases List.mem_append.1 hmem with h1 | h1
    · rcases hlab : p.lookup "label" with _ | v <;> rw [hlab] at h1
      · cases h1
      · rcases List.mem_singleton.1 h1 with he
        rw [Prod.ext_iff, Prod.ext_iff] at he
        have h2 : rdfTypeURI = rdfsLabelURI := he.2.1
        exact absurd h2 (by decide)
    · obtain ⟨pr, _, he⟩ := List.mem_map.1 h1
      rw [Prod.ext_iff, Prod.ext_iff] at he
      have h2 : Term.uri (BITA ++ pr.1) = Term.uri RDF_TYPE := he.2.1
      rw [Term.uri.injEq] at h2
      exact bita_ne_rdfType pr.1 h2
  · refine List.Nodup.append ?_ hprops ?_
    · rcases hlab : p.lookup "label" with _ | v <;> simp
    · intro x hx1 hx2
      rcases hlab : p.lookup "label" with _ | v <;> rw [hlab] at hx1
      · cases hx1
      · rcases List.mem_singleton.1 hx1 with rfl
        obtain ⟨pr, _, he⟩ := List.mem_map.1 hx2
        rw [Prod.ext_iff, Prod.ext_iff] at he
        have h2 : Term.uri (BITA ++ pr.1) = Term.uri RDFS_LABEL := he.2.1
        rw [Term.uri.injEq] at h2
        exact bita_ne_rdfsLabel pr.1 h2

theorem foldAdd_append {ts : List Triple} {g : KnowledgeGraph}
    (hfresh : ∀ x ∈ ts, x ∉ g.triples) (hnd : ts.Nodup) :
    ts.foldl Graph.add g = ⟨g.triples ++ ts⟩ := by
  induction ts generalizing g with
  | nil =>
    cases g
    simp
  | cons x rest ih =>
    rw [List.foldl_cons]
    have hx : x ∉ g.triples := hfresh x (List.mem_cons_self x rest)
    rw [show Graph.add g x = ⟨g.triples ++ [x]⟩ from by simp [Graph.add, hx]]
    rw [ih (g := ⟨g.triples ++ [x]⟩) ?_ (List.nodup_cons.1 hnd).2]
    · simp
    · intro y hy hmem
      rcases List.mem_append.1 hmem with h1 | h1
      · exact hfresh y (List.mem_cons_of_mem x hy) h1
      · rcases List.mem_singleton.1 h1 with rfl
        exact (List.nodup_cons.1 hnd).1 hy

theorem lookup_of_mem_nodup {l : List (String × PyValue)} {k : String} {v : PyValue}
    (h : (k, v) ∈ l) (hnd : (l.map Prod.fst).Nodup) : l.lookup k = some v := by
  induction l with
  | nil => cases h
  | cons a rest ih =>
    rcases List.mem_cons.1 h with he | h'
    · rw [← he]
      simp [List.lookup]
    · have hk : k ≠ a.1 := by
        intro e
        exact (List.nodup_cons.1 hnd).1
          (by rw [← e]; exact List.mem_map_of_mem Prod.fst h')
      have hk2 : (k == a.1) = false := beq_eq_false_iff_ne.2 hk
      simp only [List.lookup, hk2]
      exact ih h' (List.nodup_cons.1 hnd).2

theorem dictGet_of_mem {l : List (String × PyValue)} {k : String} {v : PyValue}
    (h : (k, v) ∈ l) (hnd : (l.map Prod.fst).Nodup) : dictGet l k = some v := by
  unfold dictGet
  refine lookup_of_mem_nodup (List.mem_reverse.2 h) ?_
  rw [List.map_reverse]
  exact List.nodup_reverse.2 hnd

theorem filterMap_prop_triples (k : String) (l : List (String × PyValue))
    (hnames : ∀ pr ∈ l, pr.1.data.contains '#' = false) :
    (l.map (fun pr => ((bitaURI k, bitaURI pr.1, valueTerm pr.2) : Triple))).filterMap
      (fun tr => if tr.1 = bitaURI k then
         if tr.2.1 = rdfTypeURI then none
         else some (afterHash (termStr tr.2.1), termToPython tr.2.2)
       else none) =
    l.map (fun pr => (pr.1, termToPython (valueTerm pr.2))) := by
  induction l with
  | nil => rfl
  | cons a rest ih =>
    rw [List.map_cons, List.filterMap_cons]
    have h1 : ¬ ((bitaURI a.1 : Term) = rdfTypeURI) := by
      simp only [bitaURI, rdfTypeURI, Term.uri.injEq]
      exact bita_ne_rdfType a.1
    simp only [if_pos rfl, if_neg h1]
    rw [show afterHash (termStr (bitaURI a.1)) = a.1 from
      afterHash_bita (hnames a (List.mem_cons_self a rest))]
    rw [ih (fun pr hpr => hnames pr (List.mem_cons_of_mem a hpr))]
    simp

theorem props_of_add_entity {g : KnowledgeGraph} {k t : String}
    {p : List (String × PyValue)}
    (hfresh : ∀ tr ∈ g.triples, tr.1 ≠ bitaURI k)
    (hnd : (p.map Prod.fst).Nodup)
    (hnames : ∀ pr ∈ p, pr.1.data.contains '#' = false) :
    get_entity_properties (add_entity g k t p) k =
      (match p.lookup "label" with
       | some v => [("label", v)]
       | none => []) ++
      (p.filter (fun pr => pr.1 ≠ "label")).map
        (fun pr => (pr.1, termToPython (valueTerm pr.2))) := by
  have hets : ∀ x ∈ entityTriples k t p, x ∉ g.triples := by
    intro x hx hgx
    exact hfresh x hgx (subj_entityTriples x hx)
  rw [show add_entity g k t p = ⟨g.triples ++ entityTriples k t p⟩ from
    foldAdd_append hets (nodup_entityTriples hnd)]
  unfold get_entity_properties
  rw [List.filterMap_append]
  rw [show (g.triples.filterMap fun tr =>
      if tr.1 = bitaURI k then
        if tr.2.1 = rdfTypeURI then none
        else some (afterHash (termStr tr.2.1), termToPython tr.2.2)
      else none) = [] from List.filterMap_eq_nil_iff.2
    (fun tr htr => by simp [hfresh tr htr])]
  rw [List.nil_append]
  unfold entityTriples
  rw [List.filterMap_cons]
  simp only [if_pos rfl, reduceIte]
  rw [List.filterMap_append]
  congr 1
  · rcases hlab : p.lookup "label" with _ | v
    · rfl
    · rw [List.filterMap_cons]
      rw [if_pos rfl, if_neg (show ¬ (rdfsLabelURI = rdfTypeURI) from by decide)]
      rw [show afterHash (termStr rdfsLabelURI) = "label" from by decide]
      rw [termToPython_plainLit]
      rfl
  · exact filterMap_prop_triples k _
      (fun pr hpr => hnames pr (List.mem_of_mem_filter hpr))

/-- C10.  Property round-trip: on a graph in which the entity key is
fresh, storing a property via `add_entity` (under the entity-reference
heuristic or not) and reading it back through `get_entity_properties`
returns exactly the stored value — for strings without `'#'`, and for
booleans, integers and floats (modelled as exact rationals).  The
property names are assumed `'#'`-free and distinct, as every property
name the system generates is. -/
theorem spec_c10_round_trip
    (g : KnowledgeGraph) (k t name : String) (p : List (String × PyValue))
    (v : PyValue)
    (hfresh : ∀ tr ∈ g.triples, tr.1 ≠ bitaURI k)
    (hnd : (p.map Prod.fst).Nodup)
    (hmem : (name, v) ∈ p)
    (hnames : ∀ pr ∈ p, pr.1.data.contains '#' = false)
    (hval : ∀ s, v = PyValue.str s → s.data.contains '#' = false) :
    dictGet (get_entity_properties (add_entity g k t p) k) name = some v := by
  rw [props_of_add_entity hfresh hnd hnames]
  have hfilterNd : ((p.filter (fun pr => pr.1 ≠ "label")).map Prod.fst).Nodup :=
    hnd.sublist ((List.filter_sublist p).map Prod.fst)
  have hmapfst : ((p.filter (fun pr => pr.1 ≠ "label")).map
      (fun pr => (pr.1, termToPython (valueTerm pr.2)))).map Prod.fst =
      (p.filter (fun pr => pr.1 ≠ "label")).map Prod.fst := by
    rw [List.map_map]
    rfl
  have hlabNotIn : "label" ∉ (p.filter (fun pr => pr.1 ≠ "label")).map Prod.fst := by
    intro hin
    obtain ⟨pr, hpr, he⟩ := List.mem_map.1 hin
    have := (List.mem_filter.1 hpr).2
    rw [he] at this
    simp at this
  apply dictGet_of_mem
  · by_cases hl : name = "label"
    · subst hl
      rw [lookup_of_mem_nodup hmem hnd]
      exact List.mem_append_left _ (List.mem_singleton.2 rfl)
    · refine List.mem_append_right _ ?_
      have hmem2 : (name, v) ∈ p.filter (fun pr => pr.1 ≠ "label") :=
        List.mem_filter.2 ⟨hmem, by simp [hl]⟩
      have he : ((name, v).1, termToPython (valueTerm (name, v).2)) = (name, v) := by
        simp [termToPython_valueTerm hval]
      exact he ▸ List.mem_map_of_mem _ hmem2
  · rw [List.map_append, hmapfst]
    rcases hlab : p.lookup "label" with _ | lv
    · simpa using hfilterNd
    · simp only [List.map_cons, List.map_nil, List.singleton_append]
      exact List.nodup_cons.2 ⟨hlabNotIn, hfilterNd⟩

/-- C10 witness: a fresh entity on the initial graph with one
heuristic-matching string, one ordinary string, a boolean, an integer, a
float and the label, each read back unchanged. -/
theorem spec_c10_round_trip_witness :
    dictGet (get_entity_properties (add_entity kgInit "E1" "Goal"
        [("label", .str "Entity One"), ("ref", .str "G_1"),
         ("note", .str "hello world"), ("flag", .bool true), ("n", .int 3),
         ("x", .float (5/2))]) "E1") "ref" = some (.str "G_1") ∧
    dictGet (get_entity_properties (add_entity kgInit "E1" "Goal"
        [("label", .str "Entity One"), ("ref", .str "G_1"),
         ("note", .str "hello world"), ("flag", .bool true), ("n", .int 3),
         ("x", .float (5/2))]) "E1") "note" = some (.str "hello world") ∧
    dictGet (get_entity_properties (add_entity kgInit "E1" "Goal"
        [("label", .str "Entity One"), ("ref", .str "G_1"),
         ("note", .str "hello world"), ("flag", .bool true), ("n", .int 3),
         ("x", .float (5/2))]) "E1") "flag" = some (.bool true) ∧
    dictGet (get_entity_properties (add_entity kgInit "E1" "Goal"
        [("label", .str "Entity One"), ("ref", .str "G_1"),
         ("note", .str "hello world"), ("flag", .bool true), ("n", .int 3),
         ("x", .float (5/2))]) "E1") "n" = some (.int 3) ∧
    dictGet (get_entity_properties (add_entity kgInit "E1" "Goal"
        [("label", .str "Entity One"), ("ref", .str "G_1"),
         ("note", .str "hello world"), ("flag", .bool true), ("n", .int 3),
         ("x", .float (5/2))]) "E1") "x" = some (.float (5/2)) ∧
    dictGet (get_entity_properties (add_entity kgInit "E1" "Goal"
        [("label", .str "Entity One"), ("ref", .str "G_1"),
         ("note", .str "hello world"), ("flag", .bool true), ("n", .int 3),
         ("x", .float (5/2))]) "E1") "label" = some (.str "Entity One") :=
  ⟨spec_c10_round_trip kgInit "E1" "Goal" "ref" _ _ (by decide) (by decide)
      (by simp) (by decide) (fun s h => by injection h with h2; rw [← h2]; decide),
   spec_c10_round_trip kgInit "E1" "Goal" "note" _ _ (by decide) (by decide)
      (by simp) (by decide) (fun s h => by injection h with h2; rw [← h2]; decide),
   spec_c10_round_trip kgInit "E1" "Goal" "flag" _ _ (by decide) (by decide)
      (by simp) (by decide) (fun s h => nomatch h),
   spec_c10_round_trip kgInit "E1" "Goal" "n" _ _ (by decide) (by decide)
      (by simp) (by decide) (fun s h => nomatch h),
   spec_c10_round_trip kgInit "E1" "Goal" "x" _ _ (by decide) (by decide)
      (by simp) (by decide) (fun s h => nomatch h),
   spec_c10_round_trip kgInit "E1" "Goal" "label" _ _ (by decide) (by decide)
      (by simp) (by decide) (fun s h => by injection h with h2; rw [← h2]; decide)⟩
